import Mathlib

/-!
Verification development for the copct Monroe-domain knowledge layer.

Shallow embedding of:
- monroe_corpus/monroe_utils.py      (unify, single_unify)
- monroe_corpus/monroe_preprocessing.py (populate_states_from_op, extract_leaves)
- monroe_corpus/monroe_domain.py     (M, mid_causes, top_causes, causes)
- knowledge_base.py                  (DescriptiveKnowledgeBase)

Python symbols are modelled as `Option String`: `some s` is an ordinary
string symbol and `none` plays the role of the Python value None, which the
source uses both as the wildcard marker in unification queries and as a
placeholder inside facts (the WRECKED-VEHICLE kludge in
populate_states_from_op). Tuples become lists; Python sets of facts become
lists managed with set-style insert/union/difference helpers (membership and
cardinality-of-distinct agree with the Python sets; the order of a list is
a canonical choice where Python leaves set iteration order unspecified).
Python code that would raise (indexing an empty list, destructuring a tuple
of the wrong size) is made total with explicit defaults; every theorem below
stays inside the region where the Python code is defined, via hypotheses on
shapes and arities.
-/

namespace Copct

/-- A symbol slot: an ordinary string symbol or the Python value None. -/
abbrev Sym := Option String

/-- Shorthand to inject a string symbol. -/
def sy (s : String) : Sym := some s

/-- A fact is a tuple of symbol slots, e.g. (ATLOC, TRUCK1, TEXACO1). -/
abbrev Fact := List Sym

/-- A world state (objs, facts) as used throughout the sources. -/
abbrev WState := List Sym × List Fact

/-- A task invocation (state, taskname, parameters). -/
abbrev Inv := WState × Sym × List Sym

/-- Default world state, used only where the Python code would raise. -/
def dWState : WState := ([], [])

/-- Default invocation, used only where the Python code would raise. -/
def dInv : Inv := (dWState, none, [])

/-! ## monroe_utils.py -/

/-- Does the fact match the query (monroe_utils.unify, inner test):
the fact has the arity of the query and each concrete query position
equals the fact value at that position; a `none` query position matches
anything. -/
def factMatches (query : List Sym) (fact : Fact) : Bool :=
  fact.length == query.length &&
    (query.zip fact).all (fun p => p.1 == none || p.1 == p.2)

/-- The substitution a matching fact induces: the fact values at the
wildcard (`none`) positions of the query, in query order. -/
def substOf (query : List Sym) (fact : Fact) : List Sym :=
  (query.zip fact).filterMap (fun p => if p.1 = none then some p.2 else none)

/-- monroe_utils.unify: all substitutions of the query against the facts,
as a deduplicated list (the Python function returns them as a set). -/
def unify (facts : List Fact) (query : List Sym) : List (List Sym) :=
  (((facts.filter (factMatches query)).map (substOf query))).dedup

/-- monroe_utils.single_unify: tries each query in order through unify and
returns the substitution of the first query with exactly one match;
if no query yields exactly one match, returns all-None sized to the
wildcard count of the last query. The Python function raises NameError on
an empty query list; here that case returns []. -/
def single_unify (facts : List Fact) : List (List Sym) → List Sym
  | [] => []
  | q :: qs =>
    let m := unify facts q
    if m.length = 1 then m.getD 0 []
    else
      match qs with
      | [] => List.replicate (q.count none) none
      | _ :: _ => single_unify facts qs

/-! ## monroe_static.py (not among the provided sources)

Modelled from the spec: monroe_static.py, which holds the per-domain static
object lists ("static object lists (locations, companies, crews, etc.)",
spec section 6), is imported by the sources but is not itself present.
The lists below are representative concrete values with the shapes the
importing code requires: `locs` a list of towns, `poslocs` a list of
possible locations, `watercos` and `powercos` maps from company name to the
locations it serves, and `sleaders`, `gens`, `food`, `pcrews` lists of
shelter leaders, generators, food items and power crews. Every theorem
below whose truth could depend on the particular values says so in its
documentation. -/

/-- Modelled from the spec: the towns of the Monroe domain. -/
def locs : List Sym := [sy "ROCHESTER", sy "BRIGHTON", sy "HENRIETTA"]

/-- Modelled from the spec: the possible locations of the Monroe domain. -/
def poslocs : List Sym :=
  [sy "ROCHESTER", sy "BRIGHTON", sy "HENRIETTA", sy "TEXACO1",
   sy "STRONG", sy "BRIGHTON-DUMP", sy "HENRIETTA-DUMP"]

/-- Modelled from the spec: water company, with the locations it serves. -/
def watercos : List (Sym × List Sym) :=
  [(sy "MONROE-WATER", [sy "ROCHESTER", sy "BRIGHTON"])]

/-- Modelled from the spec: power company, with the locations it serves. -/
def powercos : List (Sym × List Sym) :=
  [(sy "RGE", [sy "ROCHESTER", sy "HENRIETTA"])]

/-- Modelled from the spec: shelter leaders. -/
def sleaders : List Sym := [sy "SLEADER1", sy "SLEADER2"]

/-- Modelled from the spec: generators. -/
def gens : List Sym := [sy "GEN1", sy "GEN2"]

/-- Modelled from the spec: food items. -/
def food : List Sym := [sy "FOOD1"]

/-- Modelled from the spec: power crews. -/
def pcrews : List Sym := [sy "PCREW1", sy "PCREW2"]

/-! ## Set-style helpers over fact lists

The Python sources keep facts in Python sets. Lists stand in for those
sets here; the helpers below give the set operations the sources use, with
first-occurrence order as the canonical order. -/

/-- Set-style insertion of a fact (Python set.add). -/
def factAdd (l : List Fact) (f : Fact) : List Fact :=
  if f ∈ l then l else l ++ [f]

/-- Set-style union (Python set union with a small literal set). -/
def factUnion (l : List Fact) (fs : List Fact) : List Fact :=
  fs.foldl factAdd l

/-- Set-style difference (Python set difference). -/
def factDiff (l : List Fact) (fs : List Fact) : List Fact :=
  l.filter (fun f => !(fs.contains f))

/-- Set-style removal of one fact (Python set.discard). -/
def factDiscard (l : List Fact) (f : Fact) : List Fact :=
  l.filter (fun g => !(g == f))

/-- Replace the last element of a list (Python assignment to xs[-1]). -/
def setLast (l : List WState) (x : WState) : List WState :=
  l.set (l.length - 1) x

/-! ## monroe_preprocessing.populate_states_from_op

A direct translation. The source is one long chain of
`if task == NAME:` cases; the seven operators with explicit effects and the
two compound tasks with fact side effects (CLEAN-UP-HAZARD, CLEAR-WRECK)
are kept as individual cases in source order, and each maximal run of
consecutive cases whose body is exactly `return pre_states` is rendered as
one membership test over the list of that run's names, in source order.
The source has no case for DECLARE-CURFEW: the line under its comment
block repeats the REMOVE-BLOCKAGE test (a second, unreachable occurrence,
which is therefore not in any list below), so DECLARE-CURFEW falls through
to the final catch-all for effect-free primitives. -/

/-- Names of the first run of compound tasks that pass the state list
through unchanged (monroe_preprocessing lines 183 to 284). -/
def passNamesA : List Sym :=
  [sy "SET-UP-SHELTER", sy "FIX-WATER-MAIN", sy "CLEAR-ROAD-HAZARD",
   sy "CLEAR-ROAD-WRECK", sy "CLEAR-ROAD-TREE", sy "PLOW-ROAD",
   sy "QUELL-RIOT", sy "PROVIDE-TEMP-HEAT", sy "FIX-POWER-LINE",
   sy "PROVIDE-MEDICAL-ATTENTION"]

/-- Names of the second run of pass-through compound tasks
(monroe_preprocessing lines 309 to 376). -/
def passNamesB : List Sym :=
  [sy "BLOCK-ROAD", sy "UNBLOCK-ROAD", sy "GET-ELECTRICITY",
   sy "REPAIR-PIPE", sy "OPEN-HOLE", sy "CLOSE-HOLE",
   sy "SET-UP-CONES", sy "TAKE-DOWN-CONES"]

/-- Names of the third run of pass-through compound tasks
(monroe_preprocessing lines 399 to 592). -/
def passNamesC : List Sym :=
  [sy "TOW-TO", sy "CLEAR-TREE", sy "REMOVE-BLOCKAGE",
   sy "GENERATE-TEMP-ELECTRICITY", sy "MAKE-FULL-FUEL", sy "ADD-FUEL",
   sy "REPAIR-LINE", sy "SHUT-OFF-POWER", sy "TURN-ON-POWER",
   sy "SHUT-OFF-WATER", sy "TURN-ON-WATER", sy "EMT-TREAT",
   sy "STABILIZE", sy "GET-TO", sy "DRIVE-TO", sy "GET-IN", sy "GET-OUT"]

/-- monroe_preprocessing.populate_states_from_op: infer facts that must
have held before op applies and, for a primitive op, append the state
after it applies. -/
def populate_states_from_op (pre_states : List WState) (op : List Sym) :
    List WState :=
  let lastSt := pre_states.getLast?.getD dWState
  let objs := lastSt.1
  let pre_facts := lastSt.2.dedup
  let task := op.getD 0 none
  if task = sy "!NAVEGATE-VEHICLE" then
    let person := op.getD 1 none
    let veh := op.getD 2 none
    let loc := op.getD 3 none
    let aug := pre_states.map
      (fun s => (objs, factUnion s.2.dedup [[sy "PERSON", person], [sy "VEHICLE", veh]]))
    let post0 := factUnion pre_facts [[sy "ATLOC", veh, loc], [sy "ATLOC", person, loc]]
    let vl := (single_unify pre_facts
      [[sy "ATLOC", veh, none], [sy "ATLOC", person, none]]).getD 0 none
    let pre2 := match vl with
      | some vehloc =>
        factUnion pre_facts [[sy "ATLOC", veh, sy vehloc], [sy "ATLOC", person, sy vehloc]]
      | none => pre_facts
    let post2 := match vl with
      | some vehloc =>
        factDiff post0 [[sy "ATLOC", veh, sy vehloc], [sy "ATLOC", person, sy vehloc]]
      | none => post0
    setLast aug (objs, pre2) ++ [(objs, post2)]
  else if task = sy "!CLIMB-IN" then
    let obj := op.getD 1 none
    let veh := op.getD 2 none
    let post0 := factUnion pre_facts [[sy "ATLOC", obj, veh]]
    let vl := (single_unify pre_facts
      [[sy "ATLOC", obj, none], [sy "ATLOC", veh, none]]).getD 0 none
    let pre2 := match vl with
      | some objloc => factAdd pre_facts [sy "ATLOC", obj, sy objloc]
      | none => pre_facts
    let post2 := match vl with
      | some objloc => factDiscard post0 [sy "ATLOC", obj, sy objloc]
      | none => post0
    setLast pre_states (objs, pre2) ++ [(objs, post2)]
  else if task = sy "!CLIMB-OUT" then
    let obj := op.getD 1 none
    let veh := op.getD 2 none
    let pre1 := factAdd pre_facts [sy "ATLOC", obj, veh]
    let post0 := factDiff pre1 [[sy "ATLOC", obj, veh]]
    let vl := (single_unify pre1 [[sy "ATLOC", veh, none]]).getD 0 none
    let post2 := match vl with
      | some vehloc => factAdd post0 [sy "ATLOC", obj, sy vehloc]
      | none => post0
    setLast pre_states (objs, pre1) ++ [(objs, post2)]
  else if task = sy "!LOAD" then
    let obj := op.getD 2 none
    let veh := op.getD 3 none
    let aug := pre_states.map
      (fun s => (objs, factUnion s.2.dedup [[sy "FIT-IN", obj, veh]]))
    let post0 := factUnion pre_facts [[sy "ATLOC", obj, veh]]
    let vl := (single_unify pre_facts
      ((op.drop 1).map (fun p => [sy "ATLOC", p, none]))).getD 0 none
    let pre2 := match vl with
      | some objloc =>
        factUnion pre_facts ((op.drop 1).map (fun p => [sy "ATLOC", p, sy objloc]))
      | none => pre_facts
    let post2 := match vl with
      | some objloc => factDiscard post0 [sy "ATLOC", obj, sy objloc]
      | none => post0
    setLast aug (objs, pre2) ++ [(objs, post2)]
  else if task = sy "!UNLOAD" then
    let person := op.getD 1 none
    let obj := op.getD 2 none
    let veh := op.getD 3 none
    let pre1 := factUnion pre_facts [[sy "ATLOC", obj, veh]]
    let post0 := factDiff pre1 [[sy "ATLOC", obj, veh]]
    let vl := (single_unify pre1
      [[sy "ATLOC", veh, none], [sy "ATLOC", person, none]]).getD 0 none
    let pre2 := match vl with
      | some vehloc =>
        factUnion pre1 [[sy "ATLOC", veh, sy vehloc], [sy "ATLOC", person, sy vehloc]]
      | none => pre1
    let post2 := match vl with
      | some vehloc => factAdd post0 [sy "ATLOC", obj, sy vehloc]
      | none => post0
    setLast pre_states (objs, pre2) ++ [(objs, post2)]
  else if task = sy "!TREAT" then
    let emt := op.getD 1 none
    let person := op.getD 2 none
    let vl := (single_unify pre_facts
      [[sy "ATLOC", emt, none], [sy "ATLOC", person, none]]).getD 0 none
    let pre2 := match vl with
      | some ploc =>
        factUnion pre_facts [[sy "ATLOC", emt, sy ploc], [sy "ATLOC", person, sy ploc]]
      | none => pre_facts
    setLast pre_states (objs, pre2) ++ [(objs, pre2)]
  else if task = sy "TREAT-IN-HOSPITAL" then
    let pre2 := factUnion pre_facts [[sy "ATLOC", op.getD 1 none, op.getD 2 none]]
    setLast pre_states (objs, pre2) ++ [(objs, pre2)]
  else if task ∈ passNamesA then pre_states
  else if task = sy "CLEAN-UP-HAZARD" then
    setLast pre_states (objs, factUnion lastSt.2.dedup
      [[sy "HAZARD-SERIOUSNESS", op.getD 1 none, op.getD 2 none, sy "VERY-HAZARDOUS"]])
  else if task ∈ passNamesB then pre_states
  else if task = sy "CLEAR-WRECK" then
    setLast pre_states (objs, factUnion pre_facts
      [[sy "WRECKED-VEHICLE", op.getD 1 none, op.getD 2 none, none]])
  else if task ∈ passNamesC then pre_states
  else
    pre_states ++ (match pre_states.getLast? with | some s => [s] | none => [])

/-! ## monroe_domain.py -/

/-- Maximum length of v for all (u,v) in the causal relation. -/
def M : Nat := 6

/-- The task names of a window, in order (monroe_domain: tasknames). -/
def tn (v : List Inv) : List Sym := v.map (fun i => i.2.1)

/-- The state of the i-th window element (monroe_domain: states[i]). -/
def stt (v : List Inv) (i : Nat) : WState := (v.getD i dInv).1

/-- Parameter j of window element i, with the leading-None offset of the
source (monroe_domain: params[i][j], where params[i] = (None,) + x), so
j counts from 1. Out-of-range access, on which Python raises, yields
`none` here; theorems about general windows carry arity hypotheses to stay
where Python is defined. -/
def pp (v : List Inv) (i j : Nat) : Sym := ((v.getD i dInv).2.2).getD (j - 1) none

/-- Parameter j of the last window element (monroe_domain: params[-1][j]). -/
def ppL (v : List Inv) (j : Nat) : Sym := ((v.getLast?.getD dInv).2.2).getD (j - 1) none

/-- Number of declared parameters of window element i
(monroe_domain: len(params[i]) - 1). -/
def nargs (v : List Inv) (i : Nat) : Nat := ((v.getD i dInv).2.2).length

/-- First n characters of a symbol (Python s[:n]); `none` stays `none`
(Python would raise TypeError there, and every use below is guarded so
that the `none` case decides no claim). -/
def symTake (n : Nat) : Sym → Sym
  | some s => some (String.mk (s.toList.take n))
  | none => none

/-- Keys of an association list standing in for a Python dict. -/
def dictKeys (d : List (Sym × List Sym)) : List Sym := d.map Prod.fst

/-- Value of a key in an association list standing in for a Python dict. -/
def dictGet (d : List (Sym × List Sym)) (k : Sym) : List Sym := (d.lookup k).getD []

/-- Body of the !PLACE-CONES and !PICKUP-CONES branches of mid_causes:
if the crew is at exactly one location, use that location as fromloc,
otherwise enumerate fromloc over all possible locations; toloc always
ranges over all possible locations. -/
def conesFallback (s0 : WState) (name crew : Sym) : List Inv :=
  let m := unify s0.2 [sy "ATLOC", crew, none]
  if m.length = 1 then
    poslocs.map (fun toloc => (s0, name, [(m.getD 0 []).getD 0 none, toloc]))
  else
    poslocs.flatMap (fun fromloc =>
      poslocs.map (fun toloc => (s0, name, [fromloc, toloc])))

/-- Body of the (GET-TO, GET-IN, GET-OUT) branch of mid_causes before the
GEN check: the destination is recovered from the vehicle location in the
state of the third window element when unique, with a fallback over all
possible locations. -/
def cargoMidFallback (s0 s2 : WState) (obj veh : Sym) : List Inv :=
  let m := unify s2.2 [sy "ATLOC", veh, none]
  if m.length = 1 then
    [(s0, sy "GET-TO", [obj, (m.getD 0 []).getD 0 none])]
  else
    poslocs.map (fun loc => (s0, sy "GET-TO", [obj, loc]))

/-- Body of the (GET-IN, GET-OUT) branch of mid_causes before the GEN
check: the destination is recovered from the vehicle location, then the
object location, in the state of the second window element, with a
fallback over all possible locations. -/
def cargoPairFallback (s0 s1 : WState) (obj veh : Sym) : List Inv :=
  let m := unify s1.2 [sy "ATLOC", veh, none]
  if m.length = 1 then
    [(s0, sy "GET-TO", [obj, (m.getD 0 []).getD 0 none])]
  else
    let m2 := unify s1.2 [sy "ATLOC", obj, none]
    if m2.length = 1 then
      [(s0, sy "GET-TO", [obj, (m2.getD 0 []).getD 0 none])]
    else
      poslocs.map (fun loc => (s0, sy "GET-TO", [obj, loc]))

/-- Branch group 1 of mid_causes, in source order. -/
def mid_causes_1 (v : List Inv) : List Inv :=
  -- clean-up-hazard, very-hazardous
  (if tn v = [sy "!CALL"] ∧ pp v 0 1 = sy "FEMA" then
    (unify (stt v 0).2 [sy "HAZARD-SERIOUSNESS", none, none, sy "VERY-HAZARDOUS"]).map
      (fun b => (stt v 0, sy "CLEAN-UP-HAZARD", [b.getD 0 none, b.getD 1 none]))
  else []) ++
  -- clean-up-hazard, normal
  (if tn v = [sy "GET-TO", sy "!CLEAN-HAZARD"] ∧ pp v 1 2 = pp v 0 2 then
    [(stt v 0, sy "CLEAN-UP-HAZARD", [pp v 1 2, pp v 1 3])]
  else []) ++
  -- clean-up-hazard, normal, missing get-to
  (if tn v = [sy "!CLEAN-HAZARD"] then
    [(stt v 0, sy "CLEAN-UP-HAZARD", [pp v 0 2, pp v 0 3])]
  else []) ++
  -- block-road (unordered, both orders, then missing get-to)
  (if tn v = [sy "SET-UP-CONES", sy "GET-TO"] ∧ pp v 0 1 = pp v 1 2 then
    [(stt v 0, sy "BLOCK-ROAD", [pp v 0 1, pp v 0 2])]
  else []) ++
  (if tn v = [sy "GET-TO", sy "SET-UP-CONES"] ∧ pp v 1 1 = pp v 0 2 then
    [(stt v 0, sy "BLOCK-ROAD", [pp v 1 1, pp v 1 2])]
  else []) ++
  (if tn v = [sy "SET-UP-CONES"] then
    [(stt v 0, sy "BLOCK-ROAD", [pp v 0 1, pp v 0 2])]
  else []) ++
  -- unblock-road
  (if tn v = [sy "TAKE-DOWN-CONES"] then
    [(stt v 0, sy "UNBLOCK-ROAD", [pp v 0 1, pp v 0 2])]
  else []) ++
  -- get-electricity
  (if tn v = [sy "GENERATE-TEMP-ELECTRICITY"] then
    [(stt v 0, sy "GET-ELECTRICITY", [pp v 0 1])]
  else []) ++
  -- repair-pipe
  (if tn v = [sy "GET-TO", sy "SET-UP-CONES", sy "OPEN-HOLE", sy "!REPLACE-PIPE",
      sy "CLOSE-HOLE", sy "TAKE-DOWN-CONES"] ∧
      (pp v 0 2 = pp v 1 1 ∧ pp v 1 1 = pp v 2 1 ∧ pp v 2 1 = pp v 3 2 ∧
       pp v 3 2 = pp v 4 1 ∧ pp v 4 1 = pp v 5 1) ∧
      (pp v 1 2 = pp v 2 2 ∧ pp v 2 2 = pp v 3 3 ∧ pp v 3 3 = pp v 4 2 ∧
       pp v 4 2 = pp v 5 2) then
    [(stt v 0, sy "REPAIR-PIPE", [pp v 0 2, pp v 1 2])]
  else [])


/-- Branch group 2 of mid_causes, in source order. -/
def mid_causes_2 (v : List Inv) : List Inv :=
  -- repair-pipe, missing get-to
  (if tn v = [sy "SET-UP-CONES", sy "OPEN-HOLE", sy "!REPLACE-PIPE",
      sy "CLOSE-HOLE", sy "TAKE-DOWN-CONES"] ∧
      (pp v 0 1 = pp v 1 1 ∧ pp v 1 1 = pp v 2 2 ∧ pp v 2 2 = pp v 3 1 ∧
       pp v 3 1 = pp v 4 1) ∧
      (pp v 0 2 = pp v 2 3 ∧ pp v 2 3 = pp v 3 2 ∧ pp v 3 2 = pp v 4 2) then
    [(stt v 0, sy "REPAIR-PIPE", [pp v 0 1, pp v 0 2])]
  else []) ++
  -- open-hole
  (if tn v = [sy "GET-TO", sy "!DIG"] ∧ pp v 0 2 = pp v 1 2 then
    poslocs.map (fun toloc => (stt v 0, sy "OPEN-HOLE", [pp v 0 2, toloc]))
  else []) ++
  (if tn v = [sy "!DIG"] then
    poslocs.map (fun toloc => (stt v 0, sy "OPEN-HOLE", [pp v 0 2, toloc]))
  else []) ++
  -- close-hole
  (if tn v = [sy "GET-TO", sy "!FILL-IN"] ∧ pp v 0 2 = pp v 1 2 then
    poslocs.map (fun toloc => (stt v 0, sy "CLOSE-HOLE", [pp v 0 2, toloc]))
  else []) ++
  (if tn v = [sy "!FILL-IN"] then
    poslocs.map (fun toloc => (stt v 0, sy "CLOSE-HOLE", [pp v 0 2, toloc]))
  else []) ++
  -- set-up-cones
  (if tn v = [sy "GET-TO", sy "!PLACE-CONES"] then
    poslocs.map (fun toloc => (stt v 0, sy "SET-UP-CONES", [pp v 0 2, toloc]))
  else []) ++
  (if tn v = [sy "!PLACE-CONES"] then
    conesFallback (stt v 0) (sy "SET-UP-CONES") (pp v 0 1)
  else []) ++
  -- take-down-cones
  (if tn v = [sy "GET-TO", sy "!PICKUP-CONES"] then
    poslocs.map (fun toloc => (stt v 0, sy "TAKE-DOWN-CONES", [pp v 0 2, toloc]))
  else []) ++
  (if tn v = [sy "!PICKUP-CONES"] then
    conesFallback (stt v 0) (sy "TAKE-DOWN-CONES") (pp v 0 1)
  else [])


/-- Branch group 3 of mid_causes, in source order. -/
def mid_causes_3 (v : List Inv) : List Inv :=
  -- clear-wreck
  (if tn v = [sy "TOW-TO"] then
    (unify (stt v 0).2 [sy "WRECKED-VEHICLE", none, none, none]).map
      (fun b => (stt v 0, sy "CLEAR-WRECK", [b.getD 0 none, b.getD 1 none]))
  else []) ++
  -- tow-to
  (if tn v = [sy "GET-TO", sy "!HOOK-TO-TOW-TRUCK", sy "GET-TO",
      sy "!UNHOOK-FROM-TOW-TRUCK"] then
    [(stt v 0, sy "TOW-TO", [pp v 1 2, pp v 2 2])]
  else []) ++
  (if tn v = [sy "!HOOK-TO-TOW-TRUCK", sy "GET-TO", sy "!UNHOOK-FROM-TOW-TRUCK"] then
    [(stt v 0, sy "TOW-TO", [pp v 0 2, pp v 1 2])]
  else []) ++
  (if tn v = [sy "GET-TO", sy "!HOOK-TO-TOW-TRUCK", sy "!UNHOOK-FROM-TOW-TRUCK"] then
    [sy "BRIGHTON-DUMP", sy "HENRIETTA-DUMP"].map
      (fun toloc => (stt v 0, sy "TOW-TO", [pp v 1 2, toloc]))
  else []) ++
  (if tn v = [sy "!HOOK-TO-TOW-TRUCK", sy "!UNHOOK-FROM-TOW-TRUCK"] then
    [sy "BRIGHTON-DUMP", sy "HENRIETTA-DUMP"].map
      (fun toloc => (stt v 0, sy "TOW-TO", [pp v 0 2, toloc]))
  else []) ++
  -- clear-tree
  (if tn v = [sy "GET-TO", sy "!CUT-TREE", sy "REMOVE-BLOCKAGE"] then
    [(stt v 0, sy "CLEAR-TREE", [pp v 1 2])]
  else []) ++
  (if tn v = [sy "GET-TO", sy "!CUT-TREE"] then
    [(stt v 0, sy "CLEAR-TREE", [pp v 1 2])]
  else []) ++
  (if tn v = [sy "!CUT-TREE", sy "REMOVE-BLOCKAGE"] then
    [(stt v 0, sy "CLEAR-TREE", [pp v 0 2])]
  else []) ++
  -- The source line 269 compares tasknames with the bare string
  -- ("!CUT-TREE") rather than the 1-tuple, so the comparison is always
  -- false and the branch is dead; kept here with a False guard.
  (if False then
    [(stt v 0, sy "CLEAR-TREE", [pp v 0 2])]
  else [])


/-- Branch group 4 of mid_causes, in source order. -/
def mid_causes_4 (v : List Inv) : List Inv :=
  -- remove-blockage, move-to-side-of-street
  (if tn v = [sy "GET-TO", sy "!CARRY-BLOCKAGE-OUT-OF-WAY"] then
    [(stt v 0, sy "REMOVE-BLOCKAGE", [pp v 1 2])]
  else []) ++
  (if tn v = [sy "!CARRY-BLOCKAGE-OUT-OF-WAY"] then
    [(stt v 0, sy "REMOVE-BLOCKAGE", [pp v 0 2])]
  else []) ++
  -- remove-blockage, carry-away
  (if tn v = [sy "GET-TO"] ∧
      (pp v 0 2 = sy "HENRIETTA-DUMP" ∨ pp v 0 2 = sy "BRIGHTON-DUMP") then
    [(stt v 0, sy "REMOVE-BLOCKAGE", [pp v 0 1])]
  else []) ++
  -- declare-curfew
  (if tn v = [sy "!CALL", sy "!CALL"] ∧
      (pp v 0 1 = sy "EBS" ∨ pp v 1 1 = sy "EBS") then
    locs.map (fun town => (stt v 0, sy "DECLARE-CURFEW", [town]))
  else []) ++
  -- generate-temp-electricity
  (if tn v = [sy "MAKE-FULL-FUEL", sy "GET-TO", sy "!HOOK-UP", sy "!TURN-ON"] ∧
      pp v 1 2 = pp v 2 2 then
    [(stt v 0, sy "GENERATE-TEMP-ELECTRICITY", [pp v 1 2])]
  else []) ++
  (if tn v = [sy "MAKE-FULL-FUEL", sy "!HOOK-UP", sy "!TURN-ON"] then
    [(stt v 0, sy "GENERATE-TEMP-ELECTRICITY", [pp v 1 2])]
  else []) ++
  -- make-full-fuel, with-gas-can
  (if tn v = [sy "GET-TO", sy "ADD-FUEL", sy "GET-TO", sy "!POUR-INTO"] ∧
      pp v 0 1 = pp v 1 2 ∧ pp v 1 2 = pp v 2 1 then
    [(stt v 0, sy "MAKE-FULL-FUEL", [pp v 3 2])]
  else []) ++
  -- make-full-fuel, at-service-station
  (if tn v = [sy "GET-TO", sy "ADD-FUEL"] ∧
      pp v 0 1 = pp v 1 2 ∧ pp v 0 2 = pp v 1 1 then
    [(stt v 0, sy "MAKE-FULL-FUEL", [pp v 0 1])]
  else []) ++
  (if tn v = [sy "ADD-FUEL"] then
    [(stt v 0, sy "MAKE-FULL-FUEL", [pp v 0 2])]
  else [])


/-- Branch group 5 of mid_causes, in source order. -/
def mid_causes_5 (v : List Inv) : List Inv :=
  -- add-fuel
  (if tn v = [sy "!PAY", sy "!PUMP-GAS-INTO"] ∨
      tn v = [sy "!PUMP-GAS-INTO", sy "!PAY"] then
    [(stt v 0, sy "ADD-FUEL",
      [pp v 0 1, if 2 ≤ nargs v 0 then pp v 0 2 else pp v 1 2])]
  else []) ++
  -- repair-line, with-tree
  (if tn v = [sy "SHUT-OFF-POWER", sy "CLEAR-TREE", sy "!REMOVE-WIRE",
      sy "!STRING-WIRE", sy "TURN-ON-POWER"] ∨
      tn v = [sy "SHUT-OFF-POWER", sy "!REMOVE-WIRE", sy "CLEAR-TREE",
      sy "!STRING-WIRE", sy "TURN-ON-POWER"] then
    [(stt v 0, sy "REPAIR-LINE", [pp v 0 1, pp v 0 2])]
  else []) ++
  -- repair-line, without-tree
  (if tn v = [sy "SHUT-OFF-POWER", sy "!REMOVE-WIRE", sy "!STRING-WIRE",
      sy "TURN-ON-POWER"] then
    [(stt v 0, sy "REPAIR-LINE", [pp v 0 1, pp v 0 2])]
  else []) ++
  -- shut-off-power
  (if tn v = [sy "!CALL"] ∧ pp v 0 1 ∈ dictKeys powercos then
    (stt v 0).1.flatMap (fun obj =>
      if obj ∈ pcrews then
        (dictGet powercos (pp v 0 1)).map
          (fun loc => (stt v 0, sy "SHUT-OFF-POWER", [obj, loc]))
      else [])
  else []) ++
  -- turn-on-power
  (if tn v = [sy "!CALL"] ∧ pp v 0 1 ∈ dictKeys powercos then
    (stt v 0).1.flatMap (fun obj =>
      if obj ∈ pcrews then
        (dictGet powercos (pp v 0 1)).map
          (fun loc => (stt v 0, sy "TURN-ON-POWER", [obj, loc]))
      else [])
  else []) ++
  -- shut-off-water
  (if tn v = [sy "!CALL"] ∧ pp v 0 1 ∈ dictKeys watercos then
    (dictGet watercos (pp v 0 1)).flatMap (fun fromloc =>
      poslocs.map (fun toloc => (stt v 0, sy "SHUT-OFF-WATER", [fromloc, toloc])))
  else []) ++
  -- turn-on-water
  (if tn v = [sy "!CALL"] ∧ pp v 0 1 ∈ dictKeys watercos then
    (dictGet watercos (pp v 0 1)).flatMap (fun fromloc =>
      poslocs.map (fun toloc => (stt v 0, sy "TURN-ON-WATER", [fromloc, toloc])))
  else []) ++
  -- emt-treat
  (if tn v = [sy "GET-TO", sy "!TREAT"] then
    [(stt v 0, sy "EMT-TREAT", [pp v 1 2])]
  else []) ++
  (if tn v = [sy "!TREAT"] then
    [(stt v 0, sy "EMT-TREAT", [pp v 0 2])]
  else [])


/-- Branch group 6 of mid_causes, in source order. -/
def mid_causes_6 (v : List Inv) : List Inv :=
  -- stabilize
  (if tn v = [sy "EMT-TREAT"] then
    [(stt v 0, sy "STABILIZE", [pp v 0 1])]
  else []) ++
  -- get-to, person-drives-themself
  (if tn v = [sy "DRIVE-TO"] then
    [(stt v 0, sy "GET-TO", [pp v 0 1, pp v 0 3])]
  else []) ++
  -- get-to, vehicle-gets-driven
  (if tn v = [sy "DRIVE-TO"] then
    [(stt v 0, sy "GET-TO", [pp v 0 2, pp v 0 3])]
  else []) ++
  -- get-to, as-cargo (full window); the source self-comparison
  -- veh == params[0][1] opens the chain and is trivially true.
  (if tn v = [sy "GET-TO", sy "GET-IN", sy "GET-TO", sy "GET-OUT"] ∧
      (pp v 0 1 = pp v 1 2 ∧ pp v 1 2 = pp v 2 1 ∧ pp v 2 1 = pp v 3 2) ∧
      pp v 1 1 = pp v 3 1 then
    [(stt v 0, sy "GET-TO", [pp v 1 1, pp v 2 2])] ++
    (if symTake 3 (pp v 1 1) = sy "GEN" then
      [(stt v 0, sy "GET-TO", [pp v 1 1, sy "TEXACO1"])]
    else [])
  else []) ++
  -- get-to, as-cargo, missing leading get-to
  (if tn v = [sy "GET-IN", sy "GET-TO", sy "GET-OUT"] ∧
      (pp v 0 2 = pp v 1 1 ∧ pp v 1 1 = pp v 2 2) ∧ pp v 0 1 = pp v 2 1 then
    [(stt v 0, sy "GET-TO", [pp v 0 1, pp v 1 2])] ++
    (if symTake 3 (pp v 0 1) = sy "GEN" then
      [(stt v 0, sy "GET-TO", [pp v 0 1, sy "TEXACO1"])]
    else [])
  else []) ++
  -- get-to, as-cargo, missing middle get-to
  (if tn v = [sy "GET-TO", sy "GET-IN", sy "GET-OUT"] ∧
      (pp v 1 2 = pp v 0 1 ∧ pp v 0 1 = pp v 2 2) ∧ pp v 1 1 = pp v 2 1 then
    cargoMidFallback (stt v 0) (stt v 2) (pp v 1 1) (pp v 1 2) ++
    (if symTake 3 (pp v 1 1) = sy "GEN" then
      [(stt v 0, sy "GET-TO", [pp v 1 1, sy "TEXACO1"])]
    else [])
  else []) ++
  -- get-to, as-cargo, only get-in and get-out remain
  (if tn v = [sy "GET-IN", sy "GET-OUT"] ∧
      pp v 1 2 = pp v 0 2 ∧ pp v 1 1 = pp v 0 1 then
    cargoPairFallback (stt v 0) (stt v 1) (pp v 1 1) (pp v 1 2) ++
    (if symTake 3 (pp v 1 1) = sy "GEN" then
      [(stt v 0, sy "GET-TO", [pp v 1 1, sy "TEXACO1"])]
    else [])
  else [])


/-- Branch group 7 of mid_causes, in source order. -/
def mid_causes_7 (v : List Inv) : List Inv :=
  -- get-to, with-ambulance
  (if tn v = [sy "GET-TO", sy "STABILIZE", sy "GET-IN", sy "GET-TO", sy "GET-OUT"] ∧
      (pp v 0 1 = pp v 2 2 ∧ pp v 2 2 = pp v 3 1 ∧ pp v 3 1 = pp v 4 2) ∧
      (pp v 1 1 = pp v 2 1 ∧ pp v 2 1 = pp v 4 1) then
    [(stt v 0, sy "GET-TO", [pp v 1 1, pp v 3 2])]
  else []) ++
  -- get-to, with-ambulance, missing get-to
  (if tn v = [sy "STABILIZE", sy "GET-IN", sy "GET-TO", sy "GET-OUT"] ∧
      (pp v 1 2 = pp v 2 1 ∧ pp v 2 1 = pp v 3 2) ∧
      (pp v 0 1 = pp v 1 1 ∧ pp v 1 1 = pp v 3 1) then
    [(stt v 0, sy "GET-TO", [pp v 0 1, pp v 2 2])]
  else []) ++
  -- drive-to
  (if tn v = [sy "!NAVEGATE-VEHICLE"] then
    [(stt v 0, sy "DRIVE-TO", [pp v 0 1, pp v 0 2, pp v 0 3])]
  else []) ++
  -- get-in, ambulatory-person
  (if tn v = [sy "!CLIMB-IN"] then
    [(stt v 0, sy "GET-IN", [pp v 0 1, pp v 0 2])]
  else []) ++
  -- get-in, load-in
  (if tn v = [sy "GET-TO", sy "!LOAD"] then
    [(stt v 0, sy "GET-IN", [pp v 1 2, pp v 1 3])]
  else []) ++
  (if tn v = [sy "!LOAD"] then
    [(stt v 0, sy "GET-IN", [pp v 0 2, pp v 0 3])]
  else []) ++
  -- get-out, ambulatory-person
  (if tn v = [sy "!CLIMB-OUT"] then
    [(stt v 0, sy "GET-OUT", [pp v 0 1, pp v 0 2])]
  else []) ++
  -- get-out, unload
  (if tn v = [sy "GET-TO", sy "!UNLOAD"] then
    [(stt v 0, sy "GET-OUT", [pp v 1 2, pp v 1 3])]
  else []) ++
  (if tn v = [sy "!UNLOAD"] then
    [(stt v 0, sy "GET-OUT", [pp v 0 2, pp v 0 3])]
  else [])


/-- monroe_domain.mid_causes: all mid-level causal relations. Each branch
of the source (one `if tasknames == ...:` block) is one guarded block in
the groups above, in source order, concatenated; the result list read as a
set is the set g the source builds. The grouping into mid_causes_1 to
mid_causes_7 is only to keep each definition small. -/
def mid_causes (v : List Inv) : List Inv :=
  mid_causes_1 v ++ mid_causes_2 v ++ mid_causes_3 v ++ mid_causes_4 v ++ mid_causes_5 v ++ mid_causes_6 v ++ mid_causes_7 v

/-- Branch group 1 of top_causes, in source order. -/
def top_causes_1 (v : List Inv) : List Inv :=
  -- set-up-shelter
  (if tn v = [sy "GET-ELECTRICITY", sy "GET-TO", sy "GET-TO"] ∧
      (pp v 0 1 = pp v 1 2 ∧ pp v 1 2 = pp v 2 2) ∧
      pp v 1 1 ∈ sleaders ∧ pp v 2 1 ∈ food then
    [(stt v 0, sy "SET-UP-SHELTER", [pp v 0 1])]
  else []) ++
  -- set-up-shelter, missing get-electricity
  (if tn v = [sy "GET-TO", sy "GET-TO"] ∧ pp v 0 2 = pp v 1 2 ∧
      pp v 0 1 ∈ sleaders ∧ pp v 1 1 ∈ food then
    [(stt v 0, sy "SET-UP-SHELTER", [pp v 0 2])]
  else []) ++
  -- fix-water-main
  (if tn v = [sy "SHUT-OFF-WATER", sy "REPAIR-PIPE", sy "TURN-ON-WATER"] ∧
      (pp v 0 1 = pp v 1 1 ∧ pp v 1 1 = pp v 2 1) ∧
      (pp v 0 2 = pp v 1 2 ∧ pp v 1 2 = pp v 2 2) then
    [(stt v 0, sy "FIX-WATER-MAIN", [pp v 0 1, pp v 0 2])]
  else []) ++
  -- clear-road-hazard
  (if tn v = [sy "BLOCK-ROAD", sy "CLEAN-UP-HAZARD", sy "UNBLOCK-ROAD"] ∧
      (pp v 0 1 = pp v 1 1 ∧ pp v 1 1 = pp v 2 1) ∧
      (pp v 0 2 = pp v 1 2 ∧ pp v 1 2 = pp v 2 2) then
    [(stt v 0, sy "CLEAR-ROAD-HAZARD", [pp v 0 1, pp v 0 2])]
  else []) ++
  -- clear-road-wreck
  (if tn v = [sy "SET-UP-CONES", sy "CLEAR-WRECK", sy "TAKE-DOWN-CONES"] ∧
      (pp v 0 1 = pp v 1 1 ∧ pp v 1 1 = pp v 2 1) ∧
      (pp v 0 2 = pp v 1 2 ∧ pp v 1 2 = pp v 2 2) then
    [(stt v 0, sy "CLEAR-ROAD-WRECK", [pp v 0 1, pp v 0 2])]
  else []) ++
  -- clear-road-tree
  (if tn v = [sy "SET-UP-CONES", sy "CLEAR-TREE", sy "TAKE-DOWN-CONES"] ∧
      pp v 0 1 = pp v 2 1 ∧ pp v 0 2 = pp v 2 2 then
    [(stt v 0, sy "CLEAR-ROAD-TREE", [pp v 0 1, pp v 0 2])]
  else []) ++
  -- plow-road
  (if tn v = [sy "GET-TO", sy "!NAVEGATE-SNOWPLOW", sy "!ENGAGE-PLOW",
      sy "!NAVEGATE-SNOWPLOW", sy "!DISENGAGE-PLOW"] ∧
      (pp v 0 1 = pp v 1 1 ∧ pp v 1 1 = pp v 2 1 ∧ pp v 2 1 = pp v 3 1 ∧
       pp v 3 1 = pp v 4 1) then
    [(stt v 0, sy "PLOW-ROAD", [pp v 1 3, pp v 3 3])]
  else []) ++
  -- plow-road, missing get-to
  (if tn v = [sy "!NAVEGATE-SNOWPLOW", sy "!ENGAGE-PLOW", sy "!NAVEGATE-SNOWPLOW",
      sy "!DISENGAGE-PLOW"] ∧
      (pp v 0 1 = pp v 1 1 ∧ pp v 1 1 = pp v 2 1 ∧ pp v 2 1 = pp v 3 1) then
    [(stt v 0, sy "PLOW-ROAD", [pp v 0 3, pp v 2 3])]
  else []) ++
  -- quell-riot
  (if tn v = [sy "DECLARE-CURFEW", sy "GET-TO", sy "GET-TO",
      sy "!SET-UP-BARRICADES", sy "!SET-UP-BARRICADES"] ∧
      pp v 1 2 = pp v 2 2 then
    [(stt v 0, sy "QUELL-RIOT", [pp v 1 2])]
  else [])

/-- Body of the (DECLARE-CURFEW, !SET-UP-BARRICADES, !SET-UP-BARRICADES)
branch of top_causes: the riot location is recovered from the location of
the second police unit in the state of the third window element when
unique, then from the location of the first police unit in the state of
the second window element, with a fallback over all possible locations. -/
def quellRiotFallback (s0 s1 s2 : WState) (p1 p2 : Sym) : List Inv :=
  let m := unify s2.2 [sy "ATLOC", p2, none]
  if m.length = 1 then
    [(s0, sy "QUELL-RIOT", [(m.getD 0 []).getD 0 none])]
  else
    let m2 := unify s1.2 [sy "ATLOC", p1, none]
    if m2.length = 1 then
      [(s0, sy "QUELL-RIOT", [(m2.getD 0 []).getD 0 none])]
    else
      poslocs.map (fun loc => (s0, sy "QUELL-RIOT", [loc]))

/-- Branch group 2 of top_causes, in source order. -/
def top_causes_2 (v : List Inv) : List Inv :=
  -- quell-riot, missing one get-to
  (if tn v = [sy "DECLARE-CURFEW", sy "GET-TO", sy "!SET-UP-BARRICADES",
      sy "!SET-UP-BARRICADES"] then
    [(stt v 0, sy "QUELL-RIOT", [pp v 1 2])]
  else []) ++
  -- quell-riot, missing both get-to
  (if tn v = [sy "DECLARE-CURFEW", sy "!SET-UP-BARRICADES", sy "!SET-UP-BARRICADES"] then
    quellRiotFallback (stt v 0) (stt v 1) (stt v 2) (pp v 1 1) (pp v 2 1)
  else []) ++
  -- provide-temp-heat, to-shelter
  (if tn v = [sy "GET-TO"] ∧ symTake 6 (pp v 0 1) = sy "PERSON" then
    [(stt v 0, sy "PROVIDE-TEMP-HEAT", [pp v 0 1])]
  else []) ++
  -- provide-temp-heat, local-electricity
  (if tn v = [sy "GENERATE-TEMP-ELECTRICITY", sy "!TURN-ON-HEAT"] then
    (stt v 0).1.flatMap (fun obj =>
      if symTake 6 obj = sy "PERSON" then
        [(stt v 0, sy "PROVIDE-TEMP-HEAT", [obj])]
      else [])
  else []) ++
  -- fix-power-line
  (if tn v = [sy "GET-TO", sy "GET-TO", sy "REPAIR-LINE"] ∧
      pp v 2 2 = pp v 1 2 ∧ pp v 0 1 = pp v 2 1 ∧ pp v 0 1 ∈ pcrews then
    [(stt v 0, sy "FIX-POWER-LINE", [pp v 2 2])]
  else []) ++
  -- fix-power-line, missing get-to
  (if (tn v = [sy "GET-TO", sy "REPAIR-LINE"] ∨ tn v = [sy "REPAIR-LINE"]) ∧
      ppL v 2 = pp v 0 2 then
    [(stt v 0, sy "FIX-POWER-LINE", [ppL v 2])]
  else []) ++
  -- provide-medical-attention, in-hospital
  (if tn v = [sy "GET-TO", sy "!TREAT-IN-HOSPITAL"] ∧ pp v 0 1 = pp v 1 1 then
    [(stt v 0, sy "PROVIDE-MEDICAL-ATTENTION", [pp v 0 1])]
  else []) ++
  (if tn v = [sy "!TREAT-IN-HOSPITAL"] then
    [(stt v 0, sy "PROVIDE-MEDICAL-ATTENTION", [pp v 0 1])]
  else []) ++
  -- provide-medical-attention, simple-on-site
  (if tn v = [sy "EMT-TREAT"] then
    [(stt v 0, sy "PROVIDE-MEDICAL-ATTENTION", [pp v 0 1])]
  else [])

/-- monroe_domain.top_causes: all top-level causal relations, in source
order; the grouping into top_causes_1 and top_causes_2 is only to keep
each definition small. -/
def top_causes (v : List Inv) : List Inv :=
  top_causes_1 v ++ top_causes_2 v

/-- monroe_domain.causes: the full causal relation, the union of the
top-level and mid-level relations. -/
def causes (v : List Inv) : List Inv :=
  top_causes v ++ mid_causes v

/-! ## knowledge_base.py -/

/-- Schema of a sequence of invocations: task name and parameter count of
each element (knowledge_base: the schemata tuples). -/
def schemaOf (u : List Inv) : List (Sym × Nat) :=
  u.map (fun i => (i.2.1, i.2.2.length))

/-- knowledge_base.DescriptiveKnowledgeBase: a growable set of
(parent label, child schema sequence) pairs. -/
structure DescriptiveKnowledgeBase where
  causal_relation : Finset (Sym × List (Sym × Nat))

/-- DescriptiveKnowledgeBase.grow: store, for each cover, the pair of the
given label and the schema of the cover's parent sequence u (the first of
the five components of a cover; the other four are discarded, so they are
a type parameter here). -/
def DescriptiveKnowledgeBase.grow {α : Type} (kb : DescriptiveKnowledgeBase)
    (name : Sym) (covers : List (List Inv × α)) : DescriptiveKnowledgeBase :=
  ⟨covers.foldl (fun r c => insert (name, schemaOf c.1) r) kb.causal_relation⟩

/-- DescriptiveKnowledgeBase.causes: for every stored pair whose schema
equals the schema of v, the candidate built from the state of the first
element of v, the stored label, and the concatenation of the parameters
of v. -/
def DescriptiveKnowledgeBase.causes (kb : DescriptiveKnowledgeBase)
    (v : List Inv) : Finset Inv :=
  (kb.causal_relation.filter (fun p => p.2 = schemaOf v)).image
    (fun p => ((v.getD 0 dInv).1, p.1, (v.map (fun i => i.2.2)).flatten))

/-! ## monroe_preprocessing.extract_leaves

The corpus plan trees are nested tuples: a leaf is a bare operator tuple
and an internal node is an operator tuple followed by the subtrees. The
source tests type(tree[0]) == str to tell the two apart; the inductive
below makes the distinction explicit. extract_leaves reduces the mapped
subtree results with list concatenation; Python reduce raises TypeError
on an empty sequence, so an internal node with zero children is a failure,
modelled by Option. -/

inductive PTree where
  | leaf (op : List Sym) : PTree
  | node (op : List Sym) (subs : List PTree) : PTree

mutual

/-- monroe_preprocessing.extract_leaves: the left-to-right sequence of
leaf operators of a plan tree; `none` models the TypeError that Python
reduce raises at an internal node with an empty child list. -/
def extract_leaves : PTree → Option (List (List Sym))
  | .leaf op => some [op]
  | .node _ [] => none
  | .node _ (s :: rest) =>
    match extract_leaves s, extractLeavesAll rest with
    | some l, some ls => some (l ++ ls)
    | _, _ => none

/-- Concatenation of extract_leaves over a list of subtrees (the reduce
over the mapped subtrees in the source), propagating failure. -/
def extractLeavesAll : List PTree → Option (List (List Sym))
  | [] => some []
  | t :: ts =>
    match extract_leaves t, extractLeavesAll ts with
    | some l, some ls => some (l ++ ls)
    | _, _ => none

end

mutual

/-- A plan tree in which every internal node has at least one child. -/
def wfTree : PTree → Bool
  | .leaf _ => true
  | .node _ subs => !subs.isEmpty && wfForest subs

/-- All trees of the list satisfy wfTree. -/
def wfForest : List PTree → Bool
  | [] => true
  | t :: ts => wfTree t && wfForest ts

end

/-- The primitive operator names of the Monroe domain, with their
arities, collected from the operator definitions quoted in the source
comments. -/
def primArities : List (Sym × Nat) :=
  [(sy "!CALL", 1), (sy "!CLEAN-HAZARD", 3), (sy "!DIG", 2), (sy "!FILL-IN", 2),
   (sy "!PLACE-CONES", 1), (sy "!PICKUP-CONES", 1), (sy "!HOOK-TO-TOW-TRUCK", 2),
   (sy "!UNHOOK-FROM-TOW-TRUCK", 2), (sy "!CUT-TREE", 2),
   (sy "!CARRY-BLOCKAGE-OUT-OF-WAY", 2), (sy "!REPLACE-PIPE", 3),
   (sy "!HOOK-UP", 2), (sy "!TURN-ON", 1), (sy "!PAY", 1), (sy "!PUMP-GAS-INTO", 2),
   (sy "!REMOVE-WIRE", 2), (sy "!STRING-WIRE", 2), (sy "!NAVEGATE-VEHICLE", 3),
   (sy "!CLIMB-IN", 2), (sy "!CLIMB-OUT", 2), (sy "!LOAD", 3), (sy "!UNLOAD", 3),
   (sy "!TREAT", 2), (sy "!TREAT-IN-HOSPITAL", 2), (sy "!NAVEGATE-SNOWPLOW", 3),
   (sy "!ENGAGE-PLOW", 2), (sy "!DISENGAGE-PLOW", 2), (sy "!SET-UP-BARRICADES", 1),
   (sy "!TURN-ON-HEAT", 1), (sy "!POUR-INTO", 2)]

/-- The task names for which populate_states_from_op has an explicit case
with registered effects (the lisp operator is mis-cased in the source as
TREAT-IN-HOSPITAL without the exclamation mark, so the actual corpus
operator !TREAT-IN-HOSPITAL does not reach that case). -/
def effectNames : List Sym :=
  [sy "!NAVEGATE-VEHICLE", sy "!CLIMB-IN", sy "!CLIMB-OUT", sy "!LOAD",
   sy "!UNLOAD", sy "!TREAT", sy "TREAT-IN-HOSPITAL"]

mutual

/-- Does the tree contain an internal node with an empty child list. -/
def hasEmptyNode : PTree → Bool
  | .leaf _ => false
  | .node _ [] => true
  | .node _ (s :: rest) => hasEmptyNode s || hasEmptyForest rest

/-- Does some tree of the list contain an internal node with an empty
child list. -/
def hasEmptyForest : List PTree → Bool
  | [] => false
  | t :: ts => hasEmptyNode t || hasEmptyForest ts

end

/-! ## Theorems about unify and single_unify -/

/-- A fact matches a query exactly when it has the arity of the query and
every concrete query position equals the fact value at that position. -/
lemma factMatches_iff (q : List Sym) (f : Fact) :
    factMatches q f = true ↔ List.Forall₂ (fun a b => a = none ∨ a = b) q f := by
  rw [List.forall₂_iff_zip]
  simp only [factMatches, Bool.and_eq_true, beq_iff_eq, List.all_eq_true,
    Bool.or_eq_true]
  constructor
  · rintro ⟨h1, h2⟩
    exact ⟨h1.symm, fun {a b} hab => h2 (a, b) hab⟩
  · rintro ⟨h1, h2⟩
    refine ⟨h1.symm, fun p hp => ?_⟩
    obtain ⟨pa, pb⟩ := p
    exact h2 hp

/-- A fact matches the all-wildcard query of arity k exactly when it has
arity k. -/
lemma factMatches_replicate (k : Nat) (f : Fact) :
    factMatches (List.replicate k none) f = true ↔ f.length = k := by
  simp only [factMatches, Bool.and_eq_true, beq_iff_eq, List.all_eq_true,
    Bool.or_eq_true, List.length_replicate]
  constructor
  · rintro ⟨h1, -⟩; exact h1
  · intro h1
    refine ⟨h1, fun p hp => Or.inl ?_⟩
    obtain ⟨pa, pb⟩ := p
    exact List.eq_of_mem_replicate (List.of_mem_zip hp).1

/-- Against the all-wildcard query, the substitution of a fact is the fact
itself. -/
lemma substOf_replicate : ∀ (f : Fact) (k : Nat), f.length = k →
    substOf (List.replicate k none) f = f := by
  intro f
  induction f with
  | nil => intro k h; subst h; simp [substOf]
  | cons b f ih =>
    intro k h
    subst h
    simp only [List.length_cons, List.replicate_succ, substOf, List.zip_cons_cons,
      List.filterMap_cons, if_pos rfl]
    exact congrArg (b :: ·) (ih f.length rfl)

/-- C4: for every collection of fact tuples and every query, unify returns
exactly the deduplicated set of substitutions of the facts whose arity
equals the arity of the query and whose value at every concrete query
position equals the query value there (first conjunct: membership
characterization; second: deduplication); in particular, for the
all-wildcard query of arity k it returns one substitution, the fact
itself, per distinct fact of arity k (third conjunct). -/
theorem C4_unify_matches_exactly :
    (∀ (facts : List Fact) (q : List Sym) (b : List Sym),
       b ∈ unify facts q ↔
         ∃ f ∈ facts, List.Forall₂ (fun a c => a = none ∨ a = c) q f ∧ b = substOf q f) ∧
    (∀ (facts : List Fact) (q : List Sym), (unify facts q).Nodup) ∧
    (∀ (facts : List Fact) (k : Nat) (b : List Sym),
       b ∈ unify facts (List.replicate k none) ↔ b ∈ facts ∧ b.length = k) := by
  refine ⟨?_, ?_, ?_⟩
  · intro facts q b
    simp only [unify, List.mem_dedup, List.mem_map, List.mem_filter]
    constructor
    · rintro ⟨f, ⟨hf, hm⟩, rfl⟩
      exact ⟨f, hf, (factMatches_iff q f).mp hm, rfl⟩
    · rintro ⟨f, hf, hm, rfl⟩
      exact ⟨f, ⟨hf, (factMatches_iff q f).mpr hm⟩, rfl⟩
  · intro facts q
    exact List.nodup_dedup _
  · intro facts k b
    simp only [unify, List.mem_dedup, List.mem_map, List.mem_filter]
    constructor
    · rintro ⟨f, ⟨hf, hm⟩, rfl⟩
      have hlen := (factMatches_replicate k f).mp hm
      rw [substOf_replicate f k hlen]
      exact ⟨hf, hlen⟩
    · rintro ⟨hb, hlen⟩
      exact ⟨b, ⟨hb, (factMatches_replicate k b).mpr hlen⟩,
        substOf_replicate b k hlen⟩

/-- C4 witness: the characterization applied at a concrete fact set and
query. -/
theorem C4_witness :
    [sy "X"] ∈ unify [[sy "A", sy "X"]] [sy "A", none] ∧
    (unify [[sy "A", sy "X"], [sy "B", sy "Y"]] (List.replicate 2 none)).Nodup ∧
    ([sy "B", sy "Y"] ∈ unify [[sy "A", sy "X"], [sy "B", sy "Y"]] (List.replicate 2 none)) :=
  ⟨(C4_unify_matches_exactly.1 _ _ _).mpr
      ⟨[sy "A", sy "X"], by decide, by decide, by decide⟩,
   C4_unify_matches_exactly.2.1 _ _,
   (C4_unify_matches_exactly.2.2 _ _ _).mpr (by decide)⟩

/-- C5 counterexample: with facts {(A,X)} and the query list
((A,?), (?,X)), both queries have exactly one match, so by the claim the
result should be the all-None tuple (None,) sized to the last query;
the code instead returns the binding of the first query, (X,). -/
theorem C5_counterexample :
    (([[sy "A", none], [none, sy "X"]] : List (List Sym)).countP
        (fun q => (unify [[sy "A", sy "X"]] q).length == 1) = 2) ∧
    single_unify [[sy "A", sy "X"]] [[sy "A", none], [none, sy "X"]] = [sy "X"] ∧
    ([sy "X"] : List Sym) ≠ List.replicate (([none, sy "X"] : List Sym).count none) none := by
  refine ⟨by decide, by decide, by decide⟩

/-- Auxiliary form of the single_unify contract, with the last query
written through getLast? so that it needs no nonemptiness hypothesis. -/
lemma single_unify_aux (facts : List Fact) :
    ∀ qs : List (List Sym),
      (∀ q b, qs.find? (fun q => (unify facts q).length == 1) = some q →
         unify facts q = [b] → single_unify facts qs = b) ∧
      (qs.find? (fun q => (unify facts q).length == 1) = none →
         single_unify facts qs =
           List.replicate ((qs.getLast?.getD []).count none) none) := by
  intro qs
  induction qs with
  | nil => exact ⟨fun q b hfind _ => by simp at hfind, fun _ => by simp [single_unify]⟩
  | cons q rest ih =>
    by_cases hq : (unify facts q).length = 1
    · refine ⟨?_, ?_⟩
      · intro q0 b hfind huni
        rw [List.find?_cons_of_pos _ (by simp [hq])] at hfind
        obtain rfl : q = q0 := by injection hfind
        cases rest with
        | nil => simp [single_unify, hq, huni]
        | cons r rs => simp [single_unify, hq, huni]
      · intro hnone
        rw [List.find?_cons_of_pos _ (by simp [hq])] at hnone
        exact absurd hnone (by simp)
    · refine ⟨?_, ?_⟩
      · intro q0 b hfind huni
        rw [List.find?_cons_of_neg _ (by simp [hq])] at hfind
        cases rest with
        | nil => simp at hfind
        | cons r rs =>
          have step := (ih ).1 q0 b hfind huni
          simpa [single_unify, hq] using step
      · intro hnone
        rw [List.find?_cons_of_neg _ (by simp [hq])] at hnone
        cases rest with
        | nil => simp [single_unify, hq]
        | cons r rs =>
          have step := (ih ).2 hnone
          simpa [single_unify, hq] using step

/-- C5 (amended): for every fact set and every non-empty query list,
single_unify returns the unique binding of the FIRST query whose unify
result has exactly one element; only when no query yields exactly one
match does it return the all-None tuple sized to the wildcard count of
the last query. -/
theorem C5_single_unify_first_match (facts : List Fact)
    (qs : List (List Sym)) (h : qs ≠ []) :
    (∀ q b, qs.find? (fun q => (unify facts q).length == 1) = some q →
       unify facts q = [b] → single_unify facts qs = b) ∧
    (qs.find? (fun q => (unify facts q).length == 1) = none →
       single_unify facts qs = List.replicate ((qs.getLast h).count none) none) := by
  refine ⟨(single_unify_aux facts qs).1, ?_⟩
  intro hnone
  have := (single_unify_aux facts qs).2 hnone
  rwa [List.getLast?_eq_getLast_of_ne_nil h, Option.getD_some] at this

/-- C5 witness: the amended contract applied at concrete inputs, in both
the first-match case and the no-match case. -/
theorem C5_witness :
    single_unify [[sy "A", sy "X"]] [[sy "B", none], [sy "A", none]] = [sy "X"] ∧
    single_unify [[sy "A", sy "X"]] [[sy "B", none], [sy "C", none, none]] =
      List.replicate 2 none :=
  ⟨(C5_single_unify_first_match [[sy "A", sy "X"]] [[sy "B", none], [sy "A", none]]
      (by simp)).1 [sy "A", none] [sy "X"] (by decide) (by decide),
   by
    have := (C5_single_unify_first_match [[sy "A", sy "X"]]
      [[sy "B", none], [sy "C", none, none]] (by simp)).2 (by decide)
    simpa using this⟩

/-! ## Theorems about populate_states_from_op (C1, C2) -/


/-- C1 (code bug in the source): DECLARE-CURFEW is a compound (method)
task of the Monroe domain, yet populate_states_from_op grows the state
list by one on it, duplicating the last state exactly as for an
effect-free primitive; the line under the declare-curfew comment block
(monroe_preprocessing line 430) tests REMOVE-BLOCKAGE a second time
instead of DECLARE-CURFEW, so DECLARE-CURFEW falls through to the final
primitive catch-all. The contrast conjunct shows a genuinely handled
compound task, QUELL-RIOT, leaving the list length unchanged. -/
theorem C1_declare_curfew_grows_state_list :
    populate_states_from_op [([sy "OBJ1"], [])] [sy "DECLARE-CURFEW", sy "TOWN-A"] =
      [([sy "OBJ1"], []), ([sy "OBJ1"], [])] ∧
    (populate_states_from_op [([sy "OBJ1"], [])]
        [sy "DECLARE-CURFEW", sy "TOWN-A"]).length = 1 + 1 ∧
    populate_states_from_op [([sy "OBJ1"], [])] [sy "QUELL-RIOT", sy "LOC1"] =
      [([sy "OBJ1"], [])] := by
  refine ⟨by decide, by decide, by decide⟩

/-- A task name that matches no case of populate_states_from_op falls
through to the catch-all for effect-free primitives: the state list is
returned with its last state (when one exists) appended again. -/
lemma populate_catch_all (ps : List WState) (task : Sym) (args : List Sym)
    (hEff : task ∉ effectNames)
    (hA : task ∉ passNamesA) (hCZ : task ≠ sy "CLEAN-UP-HAZARD")
    (hB : task ∉ passNamesB) (hCW : task ≠ sy "CLEAR-WRECK")
    (hC : task ∉ passNamesC) :
    populate_states_from_op ps (task :: args) =
      ps ++ (match ps.getLast? with | some s => [s] | none => []) := by
  have h1 : task ≠ sy "!NAVEGATE-VEHICLE" := fun h => hEff (by rw [h]; decide)
  have h2 : task ≠ sy "!CLIMB-IN" := fun h => hEff (by rw [h]; decide)
  have h3 : task ≠ sy "!CLIMB-OUT" := fun h => hEff (by rw [h]; decide)
  have h4 : task ≠ sy "!LOAD" := fun h => hEff (by rw [h]; decide)
  have h5 : task ≠ sy "!UNLOAD" := fun h => hEff (by rw [h]; decide)
  have h6 : task ≠ sy "!TREAT" := fun h => hEff (by rw [h]; decide)
  have h7 : task ≠ sy "TREAT-IN-HOSPITAL" := fun h => hEff (by rw [h]; decide)
  simp [populate_states_from_op, h1, h2, h3, h4, h5, h6, h7, hA, hCZ, hB,
    hCW, hC]

/-- Every operator with an explicit effect case appends exactly one
state. -/
lemma populate_effect_length (task : Sym) (hEff : task ∈ effectNames)
    (ps : List WState) (args : List Sym) :
    (populate_states_from_op ps (task :: args)).length = ps.length + 1 := by
  simp only [effectNames, List.mem_cons, List.not_mem_nil, or_false] at hEff
  rcases hEff with rfl | rfl | rfl | rfl | rfl | rfl | rfl <;>
    simp [populate_states_from_op, sy, setLast]

/-- C2: for every primitive operator name of the Monroe domain, applied at
its declared arity to a non-empty state list, populate_states_from_op
returns a list exactly one element longer; and for every primitive without
registered effects the appended state is the last input state, duplicated
(the input states themselves unchanged). -/
theorem C2_primitive_appends_one_state (task : Sym) (n : Nat)
    (hprim : (task, n) ∈ primArities) (args : List Sym) (_hn : args.length = n)
    (ps : List WState) (hne : ps ≠ []) :
    (populate_states_from_op ps (task :: args)).length = ps.length + 1 ∧
    (task ∉ effectNames →
      populate_states_from_op ps (task :: args) = ps ++ [ps.getLast hne]) := by
  have hfacts : ∀ p ∈ primArities, p.1 ∉ passNamesA ∧
      p.1 ≠ sy "CLEAN-UP-HAZARD" ∧ p.1 ∉ passNamesB ∧
      p.1 ≠ sy "CLEAR-WRECK" ∧ p.1 ∉ passNamesC := by decide
  obtain ⟨hA, hCZ, hB, hCW, hC⟩ := hfacts (task, n) hprim
  by_cases hEff : task ∈ effectNames
  · exact ⟨populate_effect_length task hEff ps args,
      fun hmem => absurd hEff hmem⟩
  · have he := populate_catch_all ps task args hEff hA hCZ hB hCW hC
    simp only [List.getLast?_eq_getLast_of_ne_nil hne] at he
    exact ⟨by rw [he]; simp, fun _ => he⟩

/-- C2 witness: the contract applied at the effect-free primitive !CALL
with one state. -/
theorem C2_witness :
    (populate_states_from_op [dWState] [sy "!CALL", sy "EBS"]).length = 2 ∧
    populate_states_from_op [dWState] [sy "!CALL", sy "EBS"] =
      [dWState] ++ [dWState] :=
  ⟨(C2_primitive_appends_one_state (sy "!CALL") 1 (by decide) [sy "EBS"] rfl
      [dWState] (by simp)).1,
   (C2_primitive_appends_one_state (sy "!CALL") 1 (by decide) [sy "EBS"] rfl
      [dWState] (by simp)).2 (by decide)⟩

/-! ## Theorems about the causal relation rule base (C6, C8, C9) -/

/-- C8: M = 6 is the maximum window length the rules match against: some
rule branch matches a window of exactly 6 invocations (the repair-pipe
branch, exhibited concretely), and every window of more than 6 elements
gets the empty candidate set from causes. The particular values of the
modelled static lists play no role: every branch dispatches on an exact
task-name tuple of length at most 6. -/
theorem C8_window_length_bound :
    M = 6 ∧
    (∃ v : List Inv, v.length = 6 ∧ causes v ≠ []) ∧
    (∀ v : List Inv, 6 < v.length → causes v = []) := by
  refine ⟨rfl, ⟨[(([], []), sy "GET-TO", [sy "WCREW1", sy "F"]),
     (([], []), sy "SET-UP-CONES", [sy "F", sy "T"]),
     (([], []), sy "OPEN-HOLE", [sy "F", sy "T"]),
     (([], []), sy "!REPLACE-PIPE", [sy "WCREW1", sy "F", sy "T"]),
     (([], []), sy "CLOSE-HOLE", [sy "F", sy "T"]),
     (([], []), sy "TAKE-DOWN-CONES", [sy "F", sy "T"])], by decide, by decide⟩, ?_⟩
  intro v h
  rcases v with _|⟨a,v⟩; · simp at h
  rcases v with _|⟨b,v⟩; · simp at h
  rcases v with _|⟨c,v⟩; · simp at h
  rcases v with _|⟨d,v⟩; · simp at h
  rcases v with _|⟨e,v⟩; · simp at h
  rcases v with _|⟨f,v⟩; · simp at h
  rcases v with _|⟨g,v⟩; · simp at h
  simp [causes, top_causes, top_causes_1, top_causes_2, mid_causes,
    mid_causes_1, mid_causes_2, mid_causes_3, mid_causes_4, mid_causes_5,
    mid_causes_6, mid_causes_7, tn]

/-- C8 witness: a concrete window of 7 invocations receives the empty
candidate set. -/
theorem C8_witness :
    causes (List.replicate 7 ((([], []) : WState), sy "GET-TO",
      ([sy "A", sy "B"] : List Sym))) = [] :=
  C8_window_length_bound.2.2 _ (by simp)

/-- C6: on a window with task names (SHUT-OFF-WATER, REPAIR-PIPE,
TURN-ON-WATER) whose from/to parameters are not positionally consistent
across the three elements, the rule base returns no FIX-WATER-MAIN
candidate at all (and, the functions being total, no error is raised). -/
theorem C6_inconsistent_params_no_candidate (v : List Inv)
    (hnames : tn v = [sy "SHUT-OFF-WATER", sy "REPAIR-PIPE", sy "TURN-ON-WATER"])
    (hmis : ¬((pp v 0 1 = pp v 1 1 ∧ pp v 1 1 = pp v 2 1) ∧
              (pp v 0 2 = pp v 1 2 ∧ pp v 1 2 = pp v 2 2))) :
    ∀ u ∈ causes v, u.2.1 ≠ sy "FIX-WATER-MAIN" := by
  have hlen : v.length = 3 := by simpa [tn] using congrArg List.length hnames
  obtain ⟨i1, i2, i3, rfl⟩ := List.length_eq_three.mp hlen
  obtain ⟨s1, n1, x1⟩ := i1
  obtain ⟨s2, n2, x2⟩ := i2
  obtain ⟨s3, n3, x3⟩ := i3
  simp only [tn, List.map_cons, List.map_nil, List.cons.injEq, and_true] at hnames
  obtain ⟨rfl, rfl, rfl⟩ := hnames
  intro u hu
  simp [pp] at hmis
  simp [causes, top_causes, top_causes_1, top_causes_2, mid_causes,
    mid_causes_1, mid_causes_2, mid_causes_3, mid_causes_4, mid_causes_5,
    mid_causes_6, mid_causes_7, tn, sy, pp, stt] at hu
  obtain ⟨⟨⟨h1, h2⟩, h3, h4⟩, rfl⟩ := hu
  exact (hmis h1 h2 h3 h4).elim

/-- C6 witness: a concrete window with disagreeing from-locations yields
no FIX-WATER-MAIN candidate. -/
theorem C6_witness :
    ((([], []) : WState), sy "FIX-WATER-MAIN", ([sy "F", sy "T"] : List Sym)) ∉
      causes [((([], []) : WState), sy "SHUT-OFF-WATER", [sy "F", sy "T"]),
              ((([], []) : WState), sy "REPAIR-PIPE", [sy "F2", sy "T"]),
              ((([], []) : WState), sy "TURN-ON-WATER", [sy "F", sy "T"])] :=
  fun hu => C6_inconsistent_params_no_candidate _ (by decide) (by decide) _ hu rfl

/-- C9: the GEN string-prefix heuristic with the hardcoded TEXACO1
location is preserved: on a window with task names (GET-TO, GET-IN,
GET-TO, GET-OUT), consistent vehicle and object parameters, and a
transported object whose name begins with GEN, mid_causes returns the
extra candidate (state of the first element, GET-TO, (object, TEXACO1))
alongside the ordinary destination candidate. -/
theorem C9_gen_texaco_heuristic (v : List Inv)
    (hnames : tn v = [sy "GET-TO", sy "GET-IN", sy "GET-TO", sy "GET-OUT"])
    (hcons : (pp v 0 1 = pp v 1 2 ∧ pp v 1 2 = pp v 2 1 ∧ pp v 2 1 = pp v 3 2) ∧
             pp v 1 1 = pp v 3 1)
    (hgen : symTake 3 (pp v 1 1) = sy "GEN") :
    (stt v 0, sy "GET-TO", [pp v 1 1, sy "TEXACO1"]) ∈ mid_causes v ∧
    (stt v 0, sy "GET-TO", [pp v 1 1, pp v 2 2]) ∈ mid_causes v := by
  have hlen : v.length = 4 := by simpa [tn] using congrArg List.length hnames
  rcases v with _|⟨i1, _|⟨i2, _|⟨i3, _|⟨i4, _|⟨i5, t⟩⟩⟩⟩⟩ <;> try simp at hlen
  obtain ⟨s1, n1, x1⟩ := i1
  obtain ⟨s2, n2, x2⟩ := i2
  obtain ⟨s3, n3, x3⟩ := i3
  obtain ⟨s4, n4, x4⟩ := i4
  simp only [tn, List.map_cons, List.map_nil, List.cons.injEq, and_true] at hnames
  obtain ⟨rfl, rfl, rfl, rfl⟩ := hnames
  simp [pp] at hcons hgen
  simp [mid_causes, mid_causes_1, mid_causes_2, mid_causes_3, mid_causes_4,
    mid_causes_5, mid_causes_6, mid_causes_7, tn, sy, pp, stt, hcons, hgen]
  exact Or.inr (by rw [← hcons.2]; exact hgen)

/-- C9 witness: a concrete as-cargo window transporting GEN2 yields both
the ordinary destination candidate and the TEXACO1 candidate. -/
theorem C9_witness :
    ((([], []) : WState), sy "GET-TO", [sy "GEN2", sy "TEXACO1"]) ∈
      mid_causes [((([], []) : WState), sy "GET-TO", [sy "TRUCK1", sy "P1"]),
                  ((([], []) : WState), sy "GET-IN", [sy "GEN2", sy "TRUCK1"]),
                  ((([], []) : WState), sy "GET-TO", [sy "TRUCK1", sy "P2"]),
                  ((([], []) : WState), sy "GET-OUT", [sy "GEN2", sy "TRUCK1"])] ∧
    ((([], []) : WState), sy "GET-TO", [sy "GEN2", sy "P2"]) ∈
      mid_causes [((([], []) : WState), sy "GET-TO", [sy "TRUCK1", sy "P1"]),
                  ((([], []) : WState), sy "GET-IN", [sy "GEN2", sy "TRUCK1"]),
                  ((([], []) : WState), sy "GET-TO", [sy "TRUCK1", sy "P2"]),
                  ((([], []) : WState), sy "GET-OUT", [sy "GEN2", sy "TRUCK1"])] :=
  C9_gen_texaco_heuristic _ (by decide) (by decide) (by decide)

/-! ## Theorems about binding recovery in the rule base (C3) -/

/-- C3 counterexample, in two parts on the (GET-IN, GET-OUT) branch.
Part one (unique binding): the pre-state of v[0] locates TRUCK1 only at
LOC0 — the first conjunct exhibits its full binding set — yet the
returned candidate set contains the destination LOC1, taken by unify from
the state of v[1], and does not contain LOC0: a candidate outside the set
of bindings of v[0]'s pre-state, and the v[0] binding absent. Part two
(more than one binding): v[1]'s state locates TRUCK1 at both LOC1 and
LOC2 (fourth conjunct: the binding set has two elements; the object is
equally ambiguous), yet instead of enumerating those bindings the branch
returns candidates drawn from the static location list — STRONG, a
posloc that is no binding at all, is a candidate, while neither binding
LOC1 nor LOC2 is. This refutes both that bindings are recovered from
v[0]'s pre-state and that, under ambiguity, every binding and only
bindings are enumerated; the fallback enumerates a fixed static list
independent of the bindings, so part two does not hinge on the particular
modelled poslocs values. -/
theorem C3_counterexample :
    unify ([[sy "ATLOC", sy "TRUCK1", sy "LOC0"]]) [sy "ATLOC", sy "TRUCK1", none] =
      [[sy "LOC0"]] ∧
    ((([], [[sy "ATLOC", sy "TRUCK1", sy "LOC0"]]) : WState), sy "GET-TO",
        ([sy "CRATE1", sy "LOC1"] : List Sym)) ∈
      mid_causes
        [((([], [[sy "ATLOC", sy "TRUCK1", sy "LOC0"]]) : WState), sy "GET-IN",
            [sy "CRATE1", sy "TRUCK1"]),
         ((([], [[sy "ATLOC", sy "TRUCK1", sy "LOC1"]]) : WState), sy "GET-OUT",
            [sy "CRATE1", sy "TRUCK1"])] ∧
    ((([], [[sy "ATLOC", sy "TRUCK1", sy "LOC0"]]) : WState), sy "GET-TO",
        ([sy "CRATE1", sy "LOC0"] : List Sym)) ∉
      mid_causes
        [((([], [[sy "ATLOC", sy "TRUCK1", sy "LOC0"]]) : WState), sy "GET-IN",
            [sy "CRATE1", sy "TRUCK1"]),
         ((([], [[sy "ATLOC", sy "TRUCK1", sy "LOC1"]]) : WState), sy "GET-OUT",
            [sy "CRATE1", sy "TRUCK1"])] ∧
    unify [[sy "ATLOC", sy "TRUCK1", sy "LOC1"], [sy "ATLOC", sy "TRUCK1", sy "LOC2"],
           [sy "ATLOC", sy "CRATE1", sy "LOC1"], [sy "ATLOC", sy "CRATE1", sy "LOC2"]]
        [sy "ATLOC", sy "TRUCK1", none] = [[sy "LOC1"], [sy "LOC2"]] ∧
    ((([], [[sy "ATLOC", sy "TRUCK1", sy "LOC0"]]) : WState), sy "GET-TO",
        ([sy "CRATE1", sy "STRONG"] : List Sym)) ∈
      mid_causes
        [((([], [[sy "ATLOC", sy "TRUCK1", sy "LOC0"]]) : WState), sy "GET-IN",
            [sy "CRATE1", sy "TRUCK1"]),
         ((([], [[sy "ATLOC", sy "TRUCK1", sy "LOC1"], [sy "ATLOC", sy "TRUCK1", sy "LOC2"],
                 [sy "ATLOC", sy "CRATE1", sy "LOC1"], [sy "ATLOC", sy "CRATE1", sy "LOC2"]]) : WState),
            sy "GET-OUT", [sy "CRATE1", sy "TRUCK1"])] ∧
    ((([], [[sy "ATLOC", sy "TRUCK1", sy "LOC0"]]) : WState), sy "GET-TO",
        ([sy "CRATE1", sy "LOC1"] : List Sym)) ∉
      mid_causes
        [((([], [[sy "ATLOC", sy "TRUCK1", sy "LOC0"]]) : WState), sy "GET-IN",
            [sy "CRATE1", sy "TRUCK1"]),
         ((([], [[sy "ATLOC", sy "TRUCK1", sy "LOC1"], [sy "ATLOC", sy "TRUCK1", sy "LOC2"],
                 [sy "ATLOC", sy "CRATE1", sy "LOC1"], [sy "ATLOC", sy "CRATE1", sy "LOC2"]]) : WState),
            sy "GET-OUT", [sy "CRATE1", sy "TRUCK1"])] ∧
    ((([], [[sy "ATLOC", sy "TRUCK1", sy "LOC0"]]) : WState), sy "GET-TO",
        ([sy "CRATE1", sy "LOC2"] : List Sym)) ∉
      mid_causes
        [((([], [[sy "ATLOC", sy "TRUCK1", sy "LOC0"]]) : WState), sy "GET-IN",
            [sy "CRATE1", sy "TRUCK1"]),
         ((([], [[sy "ATLOC", sy "TRUCK1", sy "LOC1"], [sy "ATLOC", sy "TRUCK1", sy "LOC2"],
                 [sy "ATLOC", sy "CRATE1", sy "LOC1"], [sy "ATLOC", sy "CRATE1", sy "LOC2"]]) : WState),
            sy "GET-OUT", [sy "CRATE1", sy "TRUCK1"])] := by
  refine ⟨by decide, by decide, by decide, by decide, by decide, by decide, by decide⟩

/-- C3 (amended): two branch families must be distinguished. Branches
that iterate directly over the unify result — clean-up-hazard
very-hazardous (!CALL FEMA) and clear-wreck (TOW-TO) — recover the
missing parameters against v[0]'s pre-state and enumerate every binding
as a separate candidate, as the claim states (conjuncts one and two).
The branches using a unique-binding (length-one) test differ from the
claim in two ways: the state unified against is a designated window
element's pre-state, not always v[0]'s — the (GET-TO, GET-IN, GET-OUT)
branch uses v[2]'s, the (GET-IN, GET-OUT) branch uses v[1]'s (vehicle
then object), the quell-riot branch uses v[2]'s then v[1]'s, while
!PLACE-CONES does use v[0]'s — and the unique binding becomes the
candidate parameter only when one exists: otherwise the branch
enumerates fallback candidates over the static location list poslocs
(pairs of poslocs for !PLACE-CONES), not over the set of bindings
(conjuncts three to six, each characterizing every regime of its
branch). -/
theorem C3_binding_recovery_amended :
    (∀ v : List Inv, tn v = [sy "!CALL"] → pp v 0 1 = sy "FEMA" →
       ∀ b ∈ unify (stt v 0).2
           [sy "HAZARD-SERIOUSNESS", none, none, sy "VERY-HAZARDOUS"],
         (stt v 0, sy "CLEAN-UP-HAZARD", [b.getD 0 none, b.getD 1 none]) ∈
           mid_causes v) ∧
    (∀ v : List Inv, tn v = [sy "TOW-TO"] →
       ∀ b ∈ unify (stt v 0).2 [sy "WRECKED-VEHICLE", none, none, none],
         (stt v 0, sy "CLEAR-WRECK", [b.getD 0 none, b.getD 1 none]) ∈
           mid_causes v) ∧
    (∀ v : List Inv, tn v = [sy "!PLACE-CONES"] →
       (∀ f : Sym, unify (stt v 0).2 [sy "ATLOC", pp v 0 1, none] = [[f]] →
          mid_causes v = poslocs.map (fun toloc =>
            (stt v 0, sy "SET-UP-CONES", [f, toloc]))) ∧
       ((unify (stt v 0).2 [sy "ATLOC", pp v 0 1, none]).length ≠ 1 →
          mid_causes v = poslocs.flatMap (fun fromloc =>
            poslocs.map (fun toloc =>
              (stt v 0, sy "SET-UP-CONES", [fromloc, toloc]))))) ∧
    (∀ v : List Inv, tn v = [sy "GET-TO", sy "GET-IN", sy "GET-OUT"] →
       ((pp v 1 2 = pp v 0 1 ∧ pp v 0 1 = pp v 2 2) ∧ pp v 1 1 = pp v 2 1) →
       ¬ symTake 3 (pp v 1 1) = sy "GEN" →
       (∀ p : Sym, unify (stt v 2).2 [sy "ATLOC", pp v 1 2, none] = [[p]] →
          mid_causes v = [(stt v 0, sy "GET-TO", [pp v 1 1, p])]) ∧
       ((unify (stt v 2).2 [sy "ATLOC", pp v 1 2, none]).length ≠ 1 →
          mid_causes v = poslocs.map (fun loc =>
            (stt v 0, sy "GET-TO", [pp v 1 1, loc])))) ∧
    (∀ v : List Inv,
       tn v = [sy "DECLARE-CURFEW", sy "!SET-UP-BARRICADES",
               sy "!SET-UP-BARRICADES"] →
       (∀ p : Sym, unify (stt v 2).2 [sy "ATLOC", pp v 2 1, none] = [[p]] →
          top_causes v = [(stt v 0, sy "QUELL-RIOT", [p])]) ∧
       (∀ p : Sym, (unify (stt v 2).2 [sy "ATLOC", pp v 2 1, none]).length ≠ 1 →
          unify (stt v 1).2 [sy "ATLOC", pp v 1 1, none] = [[p]] →
          top_causes v = [(stt v 0, sy "QUELL-RIOT", [p])]) ∧
       ((unify (stt v 2).2 [sy "ATLOC", pp v 2 1, none]).length ≠ 1 →
        (unify (stt v 1).2 [sy "ATLOC", pp v 1 1, none]).length ≠ 1 →
          top_causes v = poslocs.map (fun loc =>
            (stt v 0, sy "QUELL-RIOT", [loc])))) ∧
    (∀ v : List Inv, tn v = [sy "GET-IN", sy "GET-OUT"] →
       (pp v 1 2 = pp v 0 2 ∧ pp v 1 1 = pp v 0 1) →
       ¬ symTake 3 (pp v 1 1) = sy "GEN" →
       (∀ p : Sym, unify (stt v 1).2 [sy "ATLOC", pp v 1 2, none] = [[p]] →
          mid_causes v = [(stt v 0, sy "GET-TO", [pp v 1 1, p])]) ∧
       (∀ p : Sym, (unify (stt v 1).2 [sy "ATLOC", pp v 1 2, none]).length ≠ 1 →
          unify (stt v 1).2 [sy "ATLOC", pp v 1 1, none] = [[p]] →
          mid_causes v = [(stt v 0, sy "GET-TO", [pp v 1 1, p])]) ∧
       ((unify (stt v 1).2 [sy "ATLOC", pp v 1 2, none]).length ≠ 1 →
        (unify (stt v 1).2 [sy "ATLOC", pp v 1 1, none]).length ≠ 1 →
          mid_causes v = poslocs.map (fun loc =>
            (stt v 0, sy "GET-TO", [pp v 1 1, loc])))) := by
  refine ⟨?_, ?_, ?_, ?_, ?_, ?_⟩
  · intro v htn hf
    have hlen : v.length = 1 := by simpa [tn] using congrArg List.length htn
    obtain ⟨i1, rfl⟩ := List.length_eq_one.mp hlen
    obtain ⟨s1, n1, x1⟩ := i1
    simp only [tn, List.map_cons, List.map_nil, List.cons.injEq, and_true] at htn
    subst htn
    intro b hb
    simp [pp, sy] at hf
    simp [pp, stt, sy] at hb
    simp [mid_causes, mid_causes_1, mid_causes_2, mid_causes_3, mid_causes_4,
      mid_causes_5, mid_causes_6, mid_causes_7, tn, sy, pp, stt, hf,
      dictKeys, powercos, watercos]
    exact ⟨b, hb, rfl, rfl⟩
  · intro v htn
    have hlen : v.length = 1 := by simpa [tn] using congrArg List.length htn
    obtain ⟨i1, rfl⟩ := List.length_eq_one.mp hlen
    obtain ⟨s1, n1, x1⟩ := i1
    simp only [tn, List.map_cons, List.map_nil, List.cons.injEq, and_true] at htn
    subst htn
    intro b hb
    simp [pp, stt, sy] at hb
    simp [mid_causes, mid_causes_1, mid_causes_2, mid_causes_3, mid_causes_4,
      mid_causes_5, mid_causes_6, mid_causes_7, tn, sy, pp, stt]
    exact ⟨b, hb, rfl, rfl⟩
  · intro v htn
    have hlen : v.length = 1 := by simpa [tn] using congrArg List.length htn
    obtain ⟨i1, rfl⟩ := List.length_eq_one.mp hlen
    obtain ⟨s1, n1, x1⟩ := i1
    simp only [tn, List.map_cons, List.map_nil, List.cons.injEq, and_true] at htn
    subst htn
    constructor
    · intro f hm
      simp [pp, stt, sy] at hm
      simp [mid_causes, mid_causes_1, mid_causes_2, mid_causes_3, mid_causes_4,
        mid_causes_5, mid_causes_6, mid_causes_7, tn, sy, pp, stt,
        conesFallback, hm]
    · intro hm
      simp [pp, stt, sy] at hm
      simp [mid_causes, mid_causes_1, mid_causes_2, mid_causes_3, mid_causes_4,
        mid_causes_5, mid_causes_6, mid_causes_7, tn, sy, pp, stt,
        conesFallback, hm]
  · intro v htn hcons hngen
    have hlen : v.length = 3 := by simpa [tn] using congrArg List.length htn
    obtain ⟨i1, i2, i3, rfl⟩ := List.length_eq_three.mp hlen
    obtain ⟨s1, n1, x1⟩ := i1
    obtain ⟨s2, n2, x2⟩ := i2
    obtain ⟨s3, n3, x3⟩ := i3
    simp only [tn, List.map_cons, List.map_nil, List.cons.injEq, and_true] at htn
    obtain ⟨rfl, rfl, rfl⟩ := htn
    simp [pp] at hcons
    simp [pp, stt, sy, hcons] at hngen
    constructor
    · intro p hm
      simp [pp, stt, sy, hcons] at hm
      simp [mid_causes, mid_causes_1, mid_causes_2, mid_causes_3, mid_causes_4,
        mid_causes_5, mid_causes_6, mid_causes_7, tn, sy, pp, stt,
        cargoMidFallback, hcons, hngen, hm]
    · intro hm
      simp [pp, stt, sy, hcons] at hm
      simp [mid_causes, mid_causes_1, mid_causes_2, mid_causes_3, mid_causes_4,
        mid_causes_5, mid_causes_6, mid_causes_7, tn, sy, pp, stt,
        cargoMidFallback, hcons, hngen, hm]
  · intro v htn
    have hlen : v.length = 3 := by simpa [tn] using congrArg List.length htn
    obtain ⟨i1, i2, i3, rfl⟩ := List.length_eq_three.mp hlen
    obtain ⟨s1, n1, x1⟩ := i1
    obtain ⟨s2, n2, x2⟩ := i2
    obtain ⟨s3, n3, x3⟩ := i3
    simp only [tn, List.map_cons, List.map_nil, List.cons.injEq, and_true] at htn
    obtain ⟨rfl, rfl, rfl⟩ := htn
    refine ⟨?_, ?_, ?_⟩
    · intro p hm
      simp [pp, stt, sy] at hm
      simp [top_causes, top_causes_1, top_causes_2, tn, sy, pp, stt,
        quellRiotFallback, hm]
    · intro p hm hm2
      simp [pp, stt, sy] at hm hm2
      simp [top_causes, top_causes_1, top_causes_2, tn, sy, pp, stt,
        quellRiotFallback, hm, hm2]
    · intro hm hm2
      simp [pp, stt, sy] at hm hm2
      simp [top_causes, top_causes_1, top_causes_2, tn, sy, pp, stt,
        quellRiotFallback, hm, hm2]
  · intro v htn hcons hngen
    have hlen : v.length = 2 := by simpa [tn] using congrArg List.length htn
    obtain ⟨i1, i2, rfl⟩ := List.length_eq_two.mp hlen
    obtain ⟨s1, n1, x1⟩ := i1
    obtain ⟨s2, n2, x2⟩ := i2
    simp only [tn, List.map_cons, List.map_nil, List.cons.injEq, and_true] at htn
    obtain ⟨rfl, rfl⟩ := htn
    simp [pp] at hcons
    simp [pp, stt, sy, hcons] at hngen
    refine ⟨?_, ?_, ?_⟩
    · intro p hm
      simp [pp, stt, sy, hcons] at hm
      simp [mid_causes, mid_causes_1, mid_causes_2, mid_causes_3, mid_causes_4,
        mid_causes_5, mid_causes_6, mid_causes_7, tn, sy, pp, stt,
        cargoPairFallback, hcons, hngen, hm]
    · intro p hm hm2
      simp [pp, stt, sy, hcons] at hm hm2
      simp [mid_causes, mid_causes_1, mid_causes_2, mid_causes_3, mid_causes_4,
        mid_causes_5, mid_causes_6, mid_causes_7, tn, sy, pp, stt,
        cargoPairFallback, hcons, hngen, hm, hm2]
    · intro hm hm2
      simp [pp, stt, sy, hcons] at hm hm2
      simp [mid_causes, mid_causes_1, mid_causes_2, mid_causes_3, mid_causes_4,
        mid_causes_5, mid_causes_6, mid_causes_7, tn, sy, pp, stt,
        cargoPairFallback, hcons, hngen, hm, hm2]

/-- C3 witness: the amended contract exercised at concrete inputs in
several regimes: the FEMA branch with two hazard bindings yields both
candidates (breadth over ambiguity where the claim holds); the
!PLACE-CONES branch with an ambiguous crew location falls back to all
posloc pairs; the (GET-IN, GET-OUT) branch with a unique vehicle binding
in v[1]'s state returns exactly that candidate; and the quell-riot branch
with no binding at all falls back to all poslocs. -/
theorem C3_witness :
    ((([], [[sy "HAZARD-SERIOUSNESS", sy "F1", sy "T1", sy "VERY-HAZARDOUS"],
            [sy "HAZARD-SERIOUSNESS", sy "F2", sy "T2", sy "VERY-HAZARDOUS"]]) : WState),
      sy "CLEAN-UP-HAZARD", ([sy "F1", sy "T1"] : List Sym)) ∈
      mid_causes [((([], [[sy "HAZARD-SERIOUSNESS", sy "F1", sy "T1", sy "VERY-HAZARDOUS"],
            [sy "HAZARD-SERIOUSNESS", sy "F2", sy "T2", sy "VERY-HAZARDOUS"]]) : WState),
          sy "!CALL", [sy "FEMA"])] ∧
    ((([], [[sy "HAZARD-SERIOUSNESS", sy "F1", sy "T1", sy "VERY-HAZARDOUS"],
            [sy "HAZARD-SERIOUSNESS", sy "F2", sy "T2", sy "VERY-HAZARDOUS"]]) : WState),
      sy "CLEAN-UP-HAZARD", ([sy "F2", sy "T2"] : List Sym)) ∈
      mid_causes [((([], [[sy "HAZARD-SERIOUSNESS", sy "F1", sy "T1", sy "VERY-HAZARDOUS"],
            [sy "HAZARD-SERIOUSNESS", sy "F2", sy "T2", sy "VERY-HAZARDOUS"]]) : WState),
          sy "!CALL", [sy "FEMA"])] ∧
    mid_causes [((([], [[sy "ATLOC", sy "CREW1", sy "LOC1"],
                        [sy "ATLOC", sy "CREW1", sy "LOC2"]]) : WState),
        sy "!PLACE-CONES", [sy "CREW1"])] =
      poslocs.flatMap (fun fromloc => poslocs.map (fun toloc =>
        ((([], [[sy "ATLOC", sy "CREW1", sy "LOC1"],
                [sy "ATLOC", sy "CREW1", sy "LOC2"]]) : WState),
          sy "SET-UP-CONES", [fromloc, toloc]))) ∧
    mid_causes
        [((([], [[sy "ATLOC", sy "TRUCK1", sy "LOC0"]]) : WState), sy "GET-IN",
            [sy "CRATE1", sy "TRUCK1"]),
         ((([], [[sy "ATLOC", sy "TRUCK1", sy "LOC1"]]) : WState), sy "GET-OUT",
            [sy "CRATE1", sy "TRUCK1"])] =
      [((([], [[sy "ATLOC", sy "TRUCK1", sy "LOC0"]]) : WState), sy "GET-TO",
          [sy "CRATE1", sy "LOC1"])] ∧
    top_causes [((([], []) : WState), sy "DECLARE-CURFEW", [sy "TOWN-A"]),
                ((([], []) : WState), sy "!SET-UP-BARRICADES", [sy "P1"]),
                ((([], []) : WState), sy "!SET-UP-BARRICADES", [sy "P2"])] =
      poslocs.map (fun loc => ((([], []) : WState), sy "QUELL-RIOT", [loc])) :=
  ⟨C3_binding_recovery_amended.1 _ (by decide) (by decide)
      [sy "F1", sy "T1"] (by decide),
   C3_binding_recovery_amended.1 _ (by decide) (by decide)
      [sy "F2", sy "T2"] (by decide),
   (C3_binding_recovery_amended.2.2.1 _ (by decide)).2 (by decide),
   (C3_binding_recovery_amended.2.2.2.2.2 _ (by decide) (by decide)
      (by decide)).1 (sy "LOC1") (by decide),
   (C3_binding_recovery_amended.2.2.2.2.1 _ (by decide)).2.2
      (by decide) (by decide)⟩

/-! ## Theorems about the knowledge base (C7) -/

/-- Membership in a fold of insertions is preserved from the start set. -/
lemma kb_mem_foldl_insert {α : Type} (name : Sym) (tl : List (List Inv × α))
    (s : Finset (Sym × List (Sym × Nat))) (x : Sym × List (Sym × Nat))
    (hx : x ∈ s) :
    x ∈ tl.foldl (fun r c => insert (name, schemaOf c.1) r) s := by
  induction tl generalizing s with
  | nil => exact hx
  | cons hd tl ih => exact ih _ (Finset.mem_insert_of_mem hx)

/-- After grow, the pair of the label and the schema of any grown cover's
parent sequence is stored. -/
lemma kb_grow_mem {α : Type} (kb : DescriptiveKnowledgeBase) (name : Sym)
    (covers : List (List Inv × α)) (c : List Inv × α) (hc : c ∈ covers) :
    (name, schemaOf c.1) ∈ (kb.grow name covers).causal_relation := by
  induction covers generalizing kb with
  | nil => cases hc
  | cons hd tl ih =>
    simp only [DescriptiveKnowledgeBase.grow, List.foldl_cons]
    rcases List.mem_cons.mp hc with rfl | hc2
    · exact kb_mem_foldl_insert name tl _ _ (Finset.mem_insert_self _ _)
    · exact ih ⟨insert (name, schemaOf hd.1) kb.causal_relation⟩ hc2

/-- Every stored pair whose schema matches the window yields its
candidate. -/
lemma kb_causes_mem (kb : DescriptiveKnowledgeBase) (v : List Inv) (name : Sym)
    (h : (name, schemaOf v) ∈ kb.causal_relation) :
    ((v.getD 0 dInv).1, name, (v.map (fun i => i.2.2)).flatten) ∈ kb.causes v :=
  Finset.mem_image.mpr ⟨(name, schemaOf v), Finset.mem_filter.mpr ⟨h, rfl⟩, rfl⟩

/-- C7: after grow(label, covers), every window whose schema equals the
schema of some grown cover's parent sequence receives the candidate
(state of v[0], label, concatenation of v's parameters) from causes
(first conjunct); every stored label whose schema matches yields its own
candidate, so several labels sharing one schema yield several candidates
(second conjunct); and re-adding an already stored (label, schema) pair
leaves the stored relation, and hence causes, unchanged (third
conjunct). -/
theorem C7_kb_grow_causes :
    (∀ {α : Type} (kb : DescriptiveKnowledgeBase) (name : Sym)
        (covers : List (List Inv × α)) (c : List Inv × α), c ∈ covers →
        ∀ v : List Inv, v ≠ [] → schemaOf v = schemaOf c.1 →
        ((v.getD 0 dInv).1, name, (v.map (fun i => i.2.2)).flatten) ∈
          (kb.grow name covers).causes v) ∧
    (∀ (kb : DescriptiveKnowledgeBase) (v : List Inv) (name : Sym), v ≠ [] →
        (name, schemaOf v) ∈ kb.causal_relation →
        ((v.getD 0 dInv).1, name, (v.map (fun i => i.2.2)).flatten) ∈
          kb.causes v) ∧
    (∀ {α : Type} (kb : DescriptiveKnowledgeBase) (name : Sym) (u : List Inv)
        (rest : α), (name, schemaOf u) ∈ kb.causal_relation →
        kb.grow name [(u, rest)] = kb ∧
        ∀ v : List Inv, (kb.grow name [(u, rest)]).causes v = kb.causes v) := by
  refine ⟨?_, ?_, ?_⟩
  · intro α kb name covers c hc v _ hs
    refine kb_causes_mem _ v name ?_
    rw [hs]
    exact kb_grow_mem kb name covers c hc
  · intro kb v name _ h
    exact kb_causes_mem kb v name h
  · intro α kb name u rest h
    obtain ⟨rel⟩ := kb
    have hins : insert (name, schemaOf u) rel = rel :=
      Finset.insert_eq_self.mpr h
    have hgrow : DescriptiveKnowledgeBase.grow ⟨rel⟩ name [(u, rest)] = ⟨rel⟩ := by
      simp [DescriptiveKnowledgeBase.grow, hins]
    exact ⟨hgrow, fun v => by rw [hgrow]⟩

/-- C7 witness: the contract applied at concrete values: a freshly grown
empty knowledge base yields the candidate for a schema-matching window
with different literal parameters; a stored second label yields its own
candidate; and re-adding a stored pair is a no-op, so causes is
unchanged. -/
theorem C7_witness :
    ((([], []) : WState), sy "P1", [sy "X"]) ∈
      ((DescriptiveKnowledgeBase.mk ∅).grow (sy "P1")
        [([((([], []) : WState), sy "A", [sy "Y"])], ())]).causes
        [((([], []) : WState), sy "A", [sy "X"])] ∧
    ((([], []) : WState), sy "P2", [sy "X"]) ∈
      (DescriptiveKnowledgeBase.mk {(sy "P2", [(sy "A", 1)])}).causes
        [((([], []) : WState), sy "A", [sy "X"])] ∧
    (DescriptiveKnowledgeBase.mk {(sy "P2", [(sy "A", 1)])}).grow (sy "P2")
        [([((([], []) : WState), sy "A", [sy "Y"])], ())] =
      DescriptiveKnowledgeBase.mk {(sy "P2", [(sy "A", 1)])} ∧
    ((DescriptiveKnowledgeBase.mk {(sy "P2", [(sy "A", 1)])}).grow (sy "P2")
        [([((([], []) : WState), sy "A", [sy "Y"])], ())]).causes
        [((([], []) : WState), sy "A", [sy "X"])] =
      (DescriptiveKnowledgeBase.mk {(sy "P2", [(sy "A", 1)])}).causes
        [((([], []) : WState), sy "A", [sy "X"])] :=
  ⟨C7_kb_grow_causes.1 ⟨∅⟩ (sy "P1") [([((([], []) : WState), sy "A", [sy "Y"])], ())]
      ([((([], []) : WState), sy "A", [sy "Y"])], ()) (by simp) _ (by simp) rfl,
   C7_kb_grow_causes.2.1 _ _ (sy "P2") (by simp) (by decide),
   (C7_kb_grow_causes.2.2 _ (sy "P2") _ () (by decide)).1,
   (C7_kb_grow_causes.2.2 _ (sy "P2") _ () (by decide)).2 _⟩

/-! ## Theorems about extract_leaves (C10) -/


mutual

/-- A tree containing an internal node with no children makes
extract_leaves fail. -/
theorem extract_leaves_none_of_empty :
    ∀ t : PTree, hasEmptyNode t = true → extract_leaves t = none
  | .leaf _, h => by simp [hasEmptyNode] at h
  | .node _ [], _ => by simp [extract_leaves]
  | .node op (s :: rest), h => by
    rw [hasEmptyNode, Bool.or_eq_true] at h
    rcases h with hs | hrest
    · rw [extract_leaves, extract_leaves_none_of_empty s hs]
    · rw [extract_leaves, extractLeavesAll_none_of_empty rest hrest]
      cases extract_leaves s <;> rfl

/-- A list containing a tree with an empty-children node makes the
concatenated extraction fail. -/
theorem extractLeavesAll_none_of_empty :
    ∀ ts : List PTree, hasEmptyForest ts = true → extractLeavesAll ts = none
  | [], h => by simp [hasEmptyForest] at h
  | t :: ts, h => by
    rw [hasEmptyForest, Bool.or_eq_true] at h
    rcases h with ht | hts
    · rw [extractLeavesAll, extract_leaves_none_of_empty t ht]
    · rw [extractLeavesAll, extractLeavesAll_none_of_empty ts hts]
      cases extract_leaves t <;> rfl

end

mutual

/-- On a tree in which every internal node has at least one child,
extract_leaves succeeds. -/
theorem extract_leaves_total :
    ∀ t : PTree, wfTree t = true → ∃ ls, extract_leaves t = some ls
  | .leaf op, _ => ⟨[op], by rw [extract_leaves]⟩
  | .node _ [], h => by simp [wfTree] at h
  | .node op (s :: rest), h => by
    rw [wfTree, Bool.and_eq_true] at h
    rw [wfForest, Bool.and_eq_true] at h
    obtain ⟨-, hs, hrest⟩ := h
    obtain ⟨ls, hls⟩ := extract_leaves_total s hs
    obtain ⟨lr, hlr⟩ := extractLeavesAll_total rest hrest
    exact ⟨ls ++ lr, by rw [extract_leaves, hls, hlr]⟩

/-- On a list of such trees, the concatenated extraction succeeds. -/
theorem extractLeavesAll_total :
    ∀ ts : List PTree, wfForest ts = true → ∃ ls, extractLeavesAll ts = some ls
  | [], _ => ⟨[], by rw [extractLeavesAll]⟩
  | t :: ts, h => by
    rw [wfForest, Bool.and_eq_true] at h
    obtain ⟨ht, hts⟩ := h
    obtain ⟨ls, hls⟩ := extract_leaves_total t ht
    obtain ⟨lr, hlr⟩ := extractLeavesAll_total ts hts
    exact ⟨ls ++ lr, by rw [extractLeavesAll, hls, hlr]⟩

end

/-- C10: extract_leaves is partial at the public interface: on every plan
tree containing an internal node with zero children it fails (returns
none, modelling the TypeError of the Python reduce over an empty
sequence) rather than yielding an empty leaf sequence — exhibited
concretely on a GET-TO node decomposed into no subtasks — and it is total
under the precondition that every internal node has at least one
child. -/
theorem C10_extract_leaves_empty_node :
    (∀ t : PTree, hasEmptyNode t = true → extract_leaves t = none) ∧
    (∀ t : PTree, wfTree t = true → ∃ ls, extract_leaves t = some ls) ∧
    extract_leaves (PTree.node [sy "GET-TO", sy "OBJ1", sy "LOC1"] []) = none :=
  ⟨fun t h => extract_leaves_none_of_empty t h,
   fun t h => extract_leaves_total t h,
   by rw [extract_leaves]⟩

/-- C10 witness: failure on a tree with a nested empty GET-TO node, and
success with the exact leaf sequence on a small well-formed tree. -/
theorem C10_witness :
    extract_leaves (PTree.node [sy "QUELL-RIOT", sy "L1"]
      [PTree.leaf [sy "!CALL", sy "EBS"], PTree.node [sy "GET-TO", sy "P1", sy "L1"] []]) =
      none ∧
    (∃ ls, extract_leaves (PTree.node [sy "FIX-WATER-MAIN", sy "F", sy "T"]
      [PTree.leaf [sy "!CALL", sy "MONROE-WATER"]]) = some ls) :=
  ⟨C10_extract_leaves_empty_node.1 _ (by simp [hasEmptyNode, hasEmptyForest]),
   C10_extract_leaves_empty_node.2.1 _ (by simp [wfTree, wfForest])⟩

end Copct
